import Mathlib

/-!
# Verification of the test-case generation engine

A shallow embedding of the test-case generation engine of this repository
(`tools/test_case_generator`): the synthetic data generator
(`src/infrastructure/synthetic_data_generator.py`), the three technique
generators (`src/application/equivalence_partition_generator.py`,
`boundary_value_generator.py`, `decision_table_generator.py`), the domain
models (`src/domain/models.py`) and the technique-selection boundary of the
tool facade (`tool.py`).

Modelling conventions:

* Python values (`Any`) are the inductive `Value`.  Python numbers are
  idealised as exact fractions (`PyNum`, an unnormalized numerator/denominator
  pair with positive denominators): the engine only adds/subtracts steps such
  as `1` and `0.1` and halves ranges, and the claims under verification are
  about those exact quantities, not about float rounding.
* Schema/parameter dictionaries are structures of optional fields; a field
  that is `none` models a key that is absent (or present with `null`, which
  every embedded code path treats identically through `.get` + `is not None`
  checks, except where noted).
* `dict.get(k1, d.get(k2))` is `pyGet2`; Python dict insertion order is kept
  by the association-list `dinsert`.
* Process-wide randomness (`random.*`, `uuid`, `datetime.now`) is an oracle
  `RandomSource` passed explicitly; no claim depends on two draws differing.
* Python `int(status_key)` may raise; it is modelled by `Option` and the
  generator entry points return `Option` accordingly (`none` = the Python
  call raises, producing no cases).
* Purely presentational `TestCase` fields (`name`, `description`,
  `preconditions`, `postconditions`, `response_schema`, `error_codes`) are
  omitted: no branching in the engine depends on them.
-/

/-- A Python number (`int` or `float`), idealised as an exact fraction kept
unnormalized (`num / den`); every number the engine builds has a positive
denominator (literals have denominator 1 or 10 and the operations multiply
denominators). -/
structure PyNum where
  num : Int
  den : Int
  deriving DecidableEq

instance : OfNat PyNum n := ⟨⟨n, 1⟩⟩

instance : Add PyNum := ⟨fun a b => ⟨a.num * b.den + b.num * a.den, a.den * b.den⟩⟩

instance : Sub PyNum := ⟨fun a b => ⟨a.num * b.den - b.num * a.den, a.den * b.den⟩⟩

/-- Python `/` (true division). -/
instance : Div PyNum := ⟨fun a b => ⟨a.num * b.den, a.den * b.num⟩⟩

/-- Python `<=` on numbers (cross multiplication; denominators positive). -/
def PyNum.le (a b : PyNum) : Bool := decide (a.num * b.den ≤ b.num * a.den)

/-- Python `==` on numbers. -/
def PyNum.beq (a b : PyNum) : Bool := a.num * b.den == b.num * a.den

/-- Python `//` (floor division). -/
def PyNum.floorDiv (a b : PyNum) : PyNum := ⟨Int.fdiv (a.num * b.den) (a.den * b.num), 1⟩

/-- The rational a `PyNum` denotes. -/
def PyNum.toRat (a : PyNum) : ℚ := (a.num : ℚ) / (a.den : ℚ)

/-- A Python runtime value, as used by the engine (`Any`). `vnum` covers both
Python `int` and `float`, idealised as the exact fraction `PyNum`. -/
inductive Value where
  | vnull
  | vbool (b : Bool)
  | vnum (q : PyNum)
  | vstr (s : String)
  | varr (xs : List Value)
  | vobj (fields : List (String × Value))

mutual
/-- Python `==` on values (structural equality), needed because
`decision_table_generator.py` line 81 tests `header not in headers` on a list
of dicts. -/
def Value.beq : Value → Value → Bool
  | .vnull, .vnull => true
  | .vbool a, .vbool b => a == b
  | .vnum a, .vnum b => PyNum.beq a b
  | .vstr a, .vstr b => a == b
  | .varr xs, .varr ys => Value.beqList xs ys
  | .vobj xs, .vobj ys => Value.beqObj xs ys
  | _, _ => false

def Value.beqList : List Value → List Value → Bool
  | [], [] => true
  | x :: xs, y :: ys => Value.beq x y && Value.beqList xs ys
  | _, _ => false

def Value.beqObj : List (String × Value) → List (String × Value) → Bool
  | [], [] => true
  | (k, v) :: xs, (k2, v2) :: ys => k == k2 && Value.beq v v2 && Value.beqObj xs ys
  | _, _ => false
end

/-- Equality on optional values (absent vs. present keys). -/
def optBeqValue : Option Value → Option Value → Bool
  | none, none => true
  | some a, some b => Value.beq a b
  | _, _ => false

/-- Equality on optional value lists (the `enum` key). -/
def optBeqValueList : Option (List Value) → Option (List Value) → Bool
  | none, none => true
  | some a, some b => Value.beqList a b
  | _, _ => false

/-- Equality on optional numbers (Python `==` under the `.get` comparison). -/
def optBeqPyNum : Option PyNum → Option PyNum → Bool
  | none, none => true
  | some a, some b => PyNum.beq a b
  | _, _ => false

/-- The fields a schema-role dictionary may carry, duck-typed through
`dict.get` in the source.  Both the snake_case keys (emitted by the swagger
analyzer's JSON export) and the camelCase OpenAPI keys appear in the source's
lookups, so both are distinct fields here.  `exampleVal` embeds the `example`
key (`example` is a Lean keyword).  `required_list` is the `required` key of
object/body schemas (a list of names); `required_flag` is the `required` key
of a property (a boolean); the embedded code reads the two shapes in disjoint
places. -/
structure SchemaF (α : Type) where
  type : Option String := none
  format : Option String := none
  exampleVal : Option Value := none
  min_length : Option Int := none
  minLength : Option Int := none
  max_length : Option Int := none
  maxLength : Option Int := none
  minimum : Option PyNum := none
  maximum : Option PyNum := none
  enum : Option (List Value) := none
  pattern : Option String := none
  minItems : Option Int := none
  maxItems : Option Int := none
  items : Option α := none
  properties : List α := []
  required_list : List String := []
  required_flag : Bool := false
  name : String := ""

/-- A schema dictionary (recursive through `items` and `properties`). -/
inductive Schema where
  | mk (f : SchemaF Schema)

/-- Field accessor for `Schema`. -/
def Schema.f : Schema → SchemaF Schema
  | .mk f => f

/-- The empty dictionary `{}`. -/
def Schema.emptyDict : Schema := .mk {}

/-- Python truthiness of a schema dict (`if not schema:`): every key absent. -/
def Schema.isEmptyDict (s : Schema) : Bool :=
  s.f.type.isNone && s.f.format.isNone && s.f.exampleVal.isNone &&
  s.f.min_length.isNone && s.f.minLength.isNone && s.f.max_length.isNone &&
  s.f.maxLength.isNone && s.f.minimum.isNone && s.f.maximum.isNone &&
  s.f.enum.isNone && s.f.pattern.isNone && s.f.minItems.isNone &&
  s.f.maxItems.isNone && s.f.items.isNone && s.f.properties.isEmpty &&
  s.f.required_list.isEmpty && !s.f.required_flag && s.f.name.isEmpty

mutual
/-- Python `==` on schema dictionaries. -/
def Schema.beq : Schema → Schema → Bool
  | .mk ⟨t1, f1, e1, a1, b1, c1, d1, m1, x1, en1, p1, mi1, ma1, it1, pr1, rl1, rf1, n1⟩,
    .mk ⟨t2, f2, e2, a2, b2, c2, d2, m2, x2, en2, p2, mi2, ma2, it2, pr2, rl2, rf2, n2⟩ =>
      t1 == t2 && f1 == f2 && optBeqValue e1 e2 && a1 == a2 && b1 == b2 &&
      c1 == c2 && d1 == d2 && optBeqPyNum m1 m2 && optBeqPyNum x1 x2 && optBeqValueList en1 en2 &&
      p1 == p2 && mi1 == mi2 && ma1 == ma2 &&
      (match it1, it2 with
       | none, none => true
       | some x, some y => Schema.beq x y
       | _, _ => false) &&
      Schema.beqList pr1 pr2 && rl1 == rl2 && rf1 == rf2 && n1 == n2

def Schema.beqList : List Schema → List Schema → Bool
  | [], [] => true
  | x :: xs, y :: ys => Schema.beq x y && Schema.beqList xs ys
  | _, _ => false
end

/-- A normalized parameter dictionary, as produced by
`SwaggerAnalysisJsonReader._extract_parameters`: `name`, `in` (`inLoc`;
`in` is a Lean keyword), `required`, `type`, `format`, `example`
(`exampleVal`) and a nested `schema` dict (`param.get('schema', {})` makes an
absent key indistinguishable from an empty dict, so the field is a plain
`Schema` defaulting to `{}`). -/
structure Param where
  name : String := ""
  inLoc : Option String := none
  required : Bool := false
  type : Option String := none
  format : Option String := none
  exampleVal : Option Value := none
  schema : Schema := Schema.emptyDict

/-- Python `==` on parameter dictionaries. -/
def Param.beq (a b : Param) : Bool :=
  a.name == b.name && a.inLoc == b.inLoc && a.required == b.required &&
  a.type == b.type && a.format == b.format &&
  optBeqValue a.exampleVal b.exampleVal && Schema.beq a.schema b.schema

/-- `request_body` as extracted by the reader (`content_types`, `description`
and `example` are never read by the generators and are omitted). -/
structure RequestBody where
  required : Bool := false
  schema : Schema := Schema.emptyDict

/-- `SwaggerEndpointData` (`src/domain/models.py`).  Only the status-code
keys of `responses` are ever read by the engine (`list(d.keys())[0]`), so
`responses` is the insertion-ordered list of status-code keys.
`operation_id`, `summary` and `description` are never read by the
generators and are omitted. -/
structure Endpoint where
  path : String := ""
  method : String := ""
  tags : List String := []
  parameters : List Param := []
  request_body : Option RequestBody := none
  responses : List String := []

/-- `dict.get(k1, dict.get(k2))`: the first key wins when present.  (A key
present with value `null` is modelled as `none`, i.e. as absent; every
embedded call site treats a stored `null` like a missing key because it
re-tests `is not None` afterwards.) -/
def pyGet2 {α : Type} : Option α → Option α → Option α
  | some v, _ => some v
  | none, fallback => fallback

/-- Python truthiness of an optional string (`if header.get('format'):`). -/
def optTruthyStr : Option String → Bool
  | some s => !s.isEmpty
  | none => false

/-- `x = d.get('example'); if x is not None: ...` — a stored `null`
(`some .vnull`) does not count as an example. -/
def exampleOf : Option Value → Option Value
  | some .vnull => none
  | some v => some v
  | none => none

/-- Ordered Python dict: `d[k] = v` keeps the position of an existing key and
appends a fresh one. -/
def dinsert (d : List (String × Value)) (k : String) (v : Value) : List (String × Value) :=
  match d with
  | [] => [(k, v)]
  | (k', v') :: rest => if k' == k then (k, v) :: rest else (k', v') :: dinsert rest k v

/-- The keys of an ordered dict. -/
def dkeys (d : List (String × Value)) : List String := d.map (·.1)

/-- Python `k in d` on a dict. -/
def dmem (d : List (String × Value)) (k : String) : Bool := (dkeys d).contains k

/-- Python `d[k]` / `d.get(k)` on a dict. -/
def dget? (d : List (String × Value)) (k : String) : Option Value :=
  (d.find? (·.1 == k)).map (·.2)

/-- The oracle for every process-wide source of nondeterminism used by
`synthetic_data_generator.py`: `random.choices` over alphanumerics
(`randStr`, keyed by requested length), `random.choice([True, False])`
(`randBool`), `random.choice(enum_values)` (`choice`), `random.randint`
(`randInt`), `uuid.uuid4()` (`uuidStr`), `date.today()` / `datetime.now()`
(`todayStr` / `nowStr`). -/
structure RandomSource where
  randStr : Nat → String
  randBool : Bool
  choice : List Value → Value
  randInt : Int → Int → Int
  uuidStr : String
  todayStr : String
  nowStr : String

/-- A concrete oracle for evaluating the engine on concrete inputs. -/
def rng0 : RandomSource where
  randStr := fun n => String.mk (List.replicate n 'a')
  randBool := true
  choice := fun l => l.headD .vnull
  randInt := fun a _ => a
  uuidStr := "00000000-0000-4000-8000-000000000000"
  todayStr := "2026-01-01"
  nowStr := "2026-01-01T00:00:00"

/-- `SyntheticDataGenerator._random_string`: empty for non-positive length,
otherwise a random alphanumeric string of exactly that length. -/
def random_string (rng : RandomSource) (length : Int) : String :=
  if length ≤ 0 then "" else rng.randStr length.toNat

/-- `SyntheticDataGenerator._generate_from_pattern`: the source does not
solve regexes; it returns a random string of the target length. -/
def generate_from_pattern (rng : RandomSource) (_pattern : String) (length : Int) : String :=
  random_string rng length

/-- `SyntheticDataGenerator._generate_valid_string`. -/
def generate_valid_string (rng : RandomSource) (schema : Schema) (format_type : Option String) : Value :=
  if format_type == some "uuid" then .vstr rng.uuidStr
  else if format_type == some "email" then
    .vstr ("test" ++ toString (rng.randInt 1000 9999) ++ "@example.com")
  else if format_type == some "date" then .vstr rng.todayStr
  else if format_type == some "date-time" then .vstr rng.nowStr
  else if format_type == some "uri" then
    .vstr ("https://example.com/resource/" ++ toString (rng.randInt 1 100))
  else
    let min_length := (pyGet2 schema.f.min_length schema.f.minLength).getD 1
    let max_length := (pyGet2 schema.f.max_length schema.f.maxLength).getD 50
    let target_length := max min_length (min (Int.fdiv (min_length + max_length) 2) max_length)
    match schema.f.enum with
    | some (v :: vs) => rng.choice (v :: vs)
    | _ =>
      if optTruthyStr schema.f.pattern then
        .vstr (generate_from_pattern rng (schema.f.pattern.getD "") target_length)
      else .vstr (random_string rng target_length)

/-- `SyntheticDataGenerator._generate_string_boundaries`. -/
def generate_string_boundaries (rng : RandomSource) (schema : Schema) : List Value :=
  let min_length := pyGet2 schema.f.min_length schema.f.minLength
  let max_length := pyGet2 schema.f.max_length schema.f.maxLength
  (match min_length with
   | none => []
   | some m =>
      (if m > 0 then [Value.vstr (random_string rng (m - 1))] else []) ++
      [Value.vstr (random_string rng m), Value.vstr (random_string rng (m + 1))]) ++
  (match max_length with
   | none => []
   | some m =>
      (if m > 1 then [Value.vstr (random_string rng (m - 1))] else []) ++
      [Value.vstr (random_string rng m), Value.vstr (random_string rng (m + 1))])

/-- `SyntheticDataGenerator._generate_valid_integer` (the midpoint by `//`). -/
def generate_valid_integer (schema : Schema) : PyNum :=
  let minimum := schema.f.minimum.getD 1
  let maximum := schema.f.maximum.getD 1000
  (minimum + maximum).floorDiv 2

/-- `SyntheticDataGenerator._generate_valid_number` (the midpoint by `/`). -/
def generate_valid_number (schema : Schema) : PyNum :=
  let minimum := schema.f.minimum.getD 0
  let maximum := schema.f.maximum.getD 1000
  (minimum + maximum) / 2

/-- `SyntheticDataGenerator._generate_numeric_boundaries`.  The float step
`0.1` is idealised as `1/10`. -/
def generate_numeric_boundaries (schema : Schema) : List PyNum :=
  let param_type := schema.f.type.getD "integer"
  (match schema.f.minimum with
   | none => []
   | some m => [m - 1, m, if param_type == "integer" then m + 1 else m + 1/10]) ++
  (match schema.f.maximum with
   | none => []
   | some m => [if param_type == "integer" then m - 1 else m - 1/10, m, m + 1])

/-- `SyntheticDataGenerator._generate_value_from_schema`. -/
def generate_value_from_schema (rng : RandomSource) (schema : Schema) : Value :=
  if schema.isEmptyDict then .vstr (rng.randStr 10)
  else match schema.f.type.getD "string" with
  | "string" => generate_valid_string rng schema schema.f.format
  | "integer" => .vnum (generate_valid_integer schema)
  | "number" => .vnum (generate_valid_number schema)
  | "boolean" => .vbool true
  | _ => .vstr (rng.randStr 8)

/-- `SyntheticDataGenerator._generate_valid_array`. -/
def generate_valid_array (rng : RandomSource) (schema : Schema) : List Value :=
  let min_items := schema.f.minItems.getD 1
  let max_items := schema.f.maxItems.getD 5
  let items_schema := schema.f.items.getD Schema.emptyDict
  let count := Int.fdiv (min_items + max_items) 2
  List.replicate count.toNat (generate_value_from_schema rng items_schema)

/-- `SyntheticDataGenerator._generate_array_boundaries`. -/
def generate_array_boundaries (rng : RandomSource) (schema : Schema) : List Value :=
  let items_schema := schema.f.items.getD Schema.emptyDict
  let arrOf := fun (n : Int) =>
    Value.varr (List.replicate n.toNat (generate_value_from_schema rng items_schema))
  (match schema.f.minItems with
   | none => []
   | some m => (if m > 0 then [arrOf (m - 1)] else []) ++ [arrOf m, arrOf (m + 1)]) ++
  (match schema.f.maxItems with
   | none => []
   | some m => [arrOf (m - 1), arrOf m, arrOf (m + 1)])

/-- `SyntheticDataGenerator._generate_value_from_property` (a body property
is itself a schema-role dict). -/
def generate_value_from_property (rng : RandomSource) (prop : Schema) : Value :=
  match exampleOf prop.f.exampleVal with
  | some v => v
  | none =>
    match prop.f.type.getD "string" with
    | "string" => generate_valid_string rng prop prop.f.format
    | "integer" => .vnum (generate_valid_integer prop)
    | "number" => .vnum (generate_valid_number prop)
    | "boolean" => .vbool true
    | "array" => .varr (generate_valid_array rng prop)
    | _ => .vstr (rng.randStr 8)

/-- `SyntheticDataGenerator._generate_valid_object`: only required
properties are populated. -/
def generate_valid_object (rng : RandomSource) (schema : Schema) : List (String × Value) :=
  schema.f.properties.foldl
    (fun obj prop =>
      let prop_name := prop.f.name
      let is_required := schema.f.required_list.contains prop_name || prop.f.required_flag
      if is_required then dinsert obj prop_name (generate_value_from_property rng prop)
      else obj)
    []

/-- The effective type of a parameter: `schema.get('type', param.get('type', 'string'))`. -/
def paramEffType (param : Param) : String :=
  param.schema.f.type.getD (param.type.getD "string")

/-- `SyntheticDataGenerator.generate_valid_value`. -/
def generate_valid_value (rng : RandomSource) (param : Param) : Value :=
  let schema := param.schema
  let param_type := paramEffType param
  let param_format := pyGet2 schema.f.format param.format
  let exRaw : Option Value := pyGet2 schema.f.exampleVal param.exampleVal
  match exampleOf exRaw with
  | some v => v
  | none =>
    if param_type == "string" then generate_valid_string rng schema param_format
    else if param_type == "integer" then .vnum (generate_valid_integer schema)
    else if param_type == "number" then .vnum (generate_valid_number schema)
    else if param_type == "boolean" then .vbool rng.randBool
    else if param_type == "array" then .varr (generate_valid_array rng schema)
    else if param_type == "object" then .vobj (generate_valid_object rng schema)
    else .vstr (rng.randStr 10)

/-- `SyntheticDataGenerator._generate_invalid_format`.  Note: the `format` is
read from the nested schema dict only (`schema.get('format')`). -/
def generate_invalid_format (rng : RandomSource) (param_type : String) (format_type : Option String) : Value :=
  if format_type == some "uuid" then .vstr "invalid-uuid-format"
  else if format_type == some "email" then .vstr "not-an-email"
  else if format_type == some "date" then .vstr "not-a-date"
  else if format_type == some "date-time" then .vstr "not-a-datetime"
  else if format_type == some "uri" then .vstr "not a uri"
  else if param_type == "integer" then .vstr "not_an_integer"
  else if param_type == "number" then .vstr "not_a_number"
  else .vstr ("INVALID_FORMAT_" ++ rng.randStr 5)

/-- `SyntheticDataGenerator._generate_wrong_type`. -/
def generate_wrong_type (expected_type : String) : Value :=
  match expected_type with
  | "string" => .vnum 12345
  | "integer" => .vstr "this_is_not_a_number"
  | "number" => .vstr "this_is_not_a_number"
  | "boolean" => .vstr "not_a_boolean"
  | "array" => .vstr "not_an_array"
  | "object" => .vstr "not_an_object"
  | _ => .vnull

/-- `SyntheticDataGenerator.generate_invalid_value`.  A violation kind of
`empty` on a non-string/array/object type falls through to the final
fallback, exactly as the Python `elif` chain does. -/
def generate_invalid_value (rng : RandomSource) (param : Param) (violation_type : String) : Value :=
  let schema := param.schema
  let param_type := paramEffType param
  if violation_type == "null" then .vnull
  else if violation_type == "empty" then
    match param_type with
    | "string" => .vstr ""
    | "array" => .varr []
    | "object" => .vobj []
    | _ => .vstr ("INVALID_" ++ rng.randStr 5)
  else if violation_type == "invalid_format" then
    generate_invalid_format rng param_type schema.f.format
  else if violation_type == "wrong_type" then generate_wrong_type param_type
  else .vstr ("INVALID_" ++ rng.randStr 5)

/-- `SyntheticDataGenerator.generate_boundary_values`. -/
def generate_boundary_values (rng : RandomSource) (param : Param) : List Value :=
  let param_type := paramEffType param
  if param_type == "string" then generate_string_boundaries rng param.schema
  else if param_type == "integer" || param_type == "number" then
    (generate_numeric_boundaries param.schema).map .vnum
  else if param_type == "array" then generate_array_boundaries rng param.schema
  else []

/-- `ISTQBTechnique` (`src/domain/models.py`), in declaration order. -/
inductive ISTQBTechnique where
  | EQUIVALENCE_PARTITIONING
  | BOUNDARY_VALUE_ANALYSIS
  | DECISION_TABLE
  | STATE_TRANSITION
  | USE_CASE_TESTING
  | SYNTAX_TESTING
  deriving DecidableEq, BEq

/-- `.value` of an `ISTQBTechnique` member. -/
def ISTQBTechnique.value : ISTQBTechnique → String
  | .EQUIVALENCE_PARTITIONING => "equivalence_partitioning"
  | .BOUNDARY_VALUE_ANALYSIS => "boundary_value_analysis"
  | .DECISION_TABLE => "decision_table"
  | .STATE_TRANSITION => "state_transition"
  | .USE_CASE_TESTING => "use_case_testing"
  | .SYNTAX_TESTING => "syntax_testing"

/-- Iteration order of `for technique in ISTQBTechnique` (declaration order). -/
def istqbMembers : List ISTQBTechnique :=
  [.EQUIVALENCE_PARTITIONING, .BOUNDARY_VALUE_ANALYSIS, .DECISION_TABLE,
   .STATE_TRANSITION, .USE_CASE_TESTING, .SYNTAX_TESTING]

/-- `TestType` (`src/domain/models.py`). -/
inductive TestType where
  | POSITIVE
  | NEGATIVE
  deriving DecidableEq, BEq

/-- `.value` of a `TestType` member. -/
def TestType.value : TestType → String
  | .POSITIVE => "positive"
  | .NEGATIVE => "negative"

/-- `Priority` (`src/domain/models.py`), in declaration order. -/
inductive Priority where
  | HIGH
  | MEDIUM
  | LOW
  deriving DecidableEq, BEq

/-- `.value` of a `Priority` member. -/
def Priority.value : Priority → String
  | .HIGH => "high"
  | .MEDIUM => "medium"
  | .LOW => "low"

/-- Iteration order of `for priority in Priority`. -/
def priorityMembers : List Priority := [.HIGH, .MEDIUM, .LOW]

/-- `TestData` (`src/domain/models.py`): ordered dicts of input values. -/
structure TestData where
  headers : List (String × Value) := []
  path_params : List (String × Value) := []
  query_params : List (String × Value) := []
  body : Option Value := none

/-- `ExpectedResult`: only `status_code` carries engine logic; the other
fields are presentational strings. -/
structure ExpectedResult where
  status_code : Nat

/-- `TestCase` (`src/domain/models.py`) restricted to the fields with engine
logic; `name`, `description`, `preconditions` and `postconditions` are
presentational strings built by f-string formatting and are omitted. -/
structure TestCase where
  id : String
  technique : ISTQBTechnique
  test_type : TestType
  priority : Priority
  endpoint : String
  http_method : String
  test_data : TestData
  expected_result : ExpectedResult
  tags : List String

/-- `SwaggerEndpointData.get_required_headers`. -/
def Endpoint.get_required_headers (e : Endpoint) : List Param :=
  e.parameters.filter (fun p => p.inLoc == some "header" && p.required)

/-- `SwaggerEndpointData.get_path_params`. -/
def Endpoint.get_path_params (e : Endpoint) : List Param :=
  e.parameters.filter (fun p => p.inLoc == some "path")

/-- `SwaggerEndpointData.get_query_params`. -/
def Endpoint.get_query_params (e : Endpoint) : List Param :=
  e.parameters.filter (fun p => p.inLoc == some "query")

/-- Python `str.startswith`. -/
def strStartsWith (s pre : String) : Bool := pre.data.isPrefixOf s.data

/-- `SwaggerEndpointData.get_success_responses` (status-code keys starting
with `2`, in insertion order). -/
def Endpoint.get_success_responses (e : Endpoint) : List String :=
  e.responses.filter (fun c => strStartsWith c "2")

/-- `SwaggerEndpointData.get_error_responses` (status-code keys starting with
`4` or `5`, in insertion order). -/
def Endpoint.get_error_responses (e : Endpoint) : List String :=
  e.responses.filter (fun c => strStartsWith c "4" || strStartsWith c "5")

/-- The numeric value of a decimal digit. -/
def charDigit? (c : Char) : Option Nat :=
  if 48 ≤ c.toNat && c.toNat ≤ 57 then some (c.toNat - 48) else none

/-- Python `int(status_key)`: `none` models the `ValueError` raised on a
non-numeric key (status keys are plain digit strings). -/
def pyIntOfCode (s : String) : Option Nat :=
  if s.data.isEmpty then none
  else s.data.foldl
    (fun acc c =>
      match acc, charDigit? c with
      | some n, some d => some (n * 10 + d)
      | _, _ => none)
    (some 0)

/-- `_get_first_success_code`: `int` of the first success key, or the 200
fallback when no success response is declared.  `none` = the `int()` call
raises. -/
def get_first_success_code? (e : Endpoint) : Option Nat :=
  match e.get_success_responses with
  | [] => some 200
  | k :: _ => pyIntOfCode k

/-- `_get_first_error_code`: `int` of the first error key, or the 400
fallback when no error response is declared. -/
def get_first_error_code? (e : Endpoint) : Option Nat :=
  match e.get_error_responses with
  | [] => some 400
  | k :: _ => pyIntOfCode k

/-- `endpoint_data.request_body and endpoint_data.request_body.get('required')`. -/
def Endpoint.bodyRequired (e : Endpoint) : Bool :=
  match e.request_body with
  | some rb => rb.required
  | none => false

/-- Python `f"{n:03d}"`. -/
def pad3 (n : Nat) : String :=
  if n < 10 then "00" ++ toString n
  else if n < 100 then "0" ++ toString n
  else toString n

/-- Threads the generator's `self._test_counter` through a per-item case
constructor: each item sees the counter after its `+= 1`. -/
def mapWithCounter {α β : Type} (f : α → Nat → β) : List α → Nat → List β × Nat
  | [], n => ([], n)
  | x :: xs, n =>
      let y := f x (n + 1)
      let (ys, n') := mapWithCounter f xs (n + 1)
      (y :: ys, n')

/-- `EquivalencePartitioningGenerator._populate_valid_test_data`.
`exclude_param` is the `{'name', 'location'}` pair, `invalid_param` the
`{'name', 'location', 'data'}` triple. -/
def populate_valid_test_data (rng : RandomSource) (e : Endpoint)
    (exclude_param : Option (String × String))
    (invalid_param : Option (String × String × Param)) : TestData :=
  let isExcluded := fun (name loc : String) =>
    match exclude_param with
    | some (n, l) => name == n && l == loc
    | none => false
  let invalidFor := fun (name loc : String) =>
    match invalid_param with
    | some (n, l, dta) => if name == n && l == loc then some dta else none
    | none => none
  let headers := e.get_required_headers.foldl
    (fun d header =>
      if isExcluded header.name "header" then d
      else match invalidFor header.name "header" with
        | some dta => dinsert d header.name (generate_invalid_value rng dta "invalid_format")
        | none => dinsert d header.name (generate_valid_value rng header))
    []
  let path_params := e.get_path_params.foldl
    (fun d param =>
      if isExcluded param.name "path" then d
      else dinsert d param.name (generate_valid_value rng param))
    []
  let query_params := e.get_query_params.foldl
    (fun d param =>
      if param.required then
        if isExcluded param.name "query" then d
        else dinsert d param.name (generate_valid_value rng param)
      else d)
    []
  let body :=
    if e.bodyRequired then
      match e.request_body with
      | some rb => some (generate_valid_value rng { schema := rb.schema })
      | none => none
    else none
  { headers := headers, path_params := path_params, query_params := query_params, body := body }

/-- `EquivalencePartitioningGenerator._generate_all_valid_case`. -/
def ep_all_valid_case (rng : RandomSource) (e : Endpoint) (n : Nat) (success_code : Nat) : TestCase where
  id := "EP-" ++ pad3 n
  technique := .EQUIVALENCE_PARTITIONING
  test_type := .POSITIVE
  priority := .HIGH
  endpoint := e.path
  http_method := e.method
  test_data := populate_valid_test_data rng e none none
  expected_result := { status_code := success_code }
  tags := e.tags ++ ["equivalence_partitioning", "positive"]

/-- `EquivalencePartitioningGenerator._generate_missing_param_case`. -/
def ep_missing_param_case (rng : RandomSource) (e : Endpoint) (n : Nat)
    (param : Param) (param_location : String) (error_code : Nat) : TestCase where
  id := "EP-" ++ pad3 n
  technique := .EQUIVALENCE_PARTITIONING
  test_type := .NEGATIVE
  priority := .HIGH
  endpoint := e.path
  http_method := e.method
  test_data := populate_valid_test_data rng e (some (param.name, param_location)) none
  expected_result := { status_code := error_code }
  tags := e.tags ++ ["equivalence_partitioning", "negative", "missing_param"]

/-- `EquivalencePartitioningGenerator._generate_invalid_format_case`. -/
def ep_invalid_format_case (rng : RandomSource) (e : Endpoint) (n : Nat)
    (param : Param) (param_location : String) (error_code : Nat) : TestCase where
  id := "EP-" ++ pad3 n
  technique := .EQUIVALENCE_PARTITIONING
  test_type := .NEGATIVE
  priority := .MEDIUM
  endpoint := e.path
  http_method := e.method
  test_data := populate_valid_test_data rng e none (some (param.name, param_location, param))
  expected_result := { status_code := error_code }
  tags := e.tags ++ ["equivalence_partitioning", "negative", "invalid_format"]

/-- `EquivalencePartitioningGenerator._generate_empty_body_case`. -/
def ep_empty_body_case (rng : RandomSource) (e : Endpoint) (n : Nat) (error_code : Nat) : TestCase where
  id := "EP-" ++ pad3 n
  technique := .EQUIVALENCE_PARTITIONING
  test_type := .NEGATIVE
  priority := .HIGH
  endpoint := e.path
  http_method := e.method
  test_data := { populate_valid_test_data rng e none none with body := some (.vobj []) }
  expected_result := { status_code := error_code }
  tags := e.tags ++ ["equivalence_partitioning", "negative", "empty_body"]

/-- `EquivalencePartitioningGenerator.generate`.  The error-code lookup is
lazy in the source (it happens inside the first negative case created), so
the whole run fails on an unparseable first error key only when at least one
negative case is due; `none` models the raised `ValueError`. -/
def ep_generate (rng : RandomSource) (e : Endpoint) (counter : Nat) : Option (List TestCase × Nat) :=
  match get_first_success_code? e with
  | none => none
  | some sc =>
      let c1 := counter + 1
      let pos := ep_all_valid_case rng e c1 sc
      let hdrs := e.get_required_headers
      let fmt_hdrs := hdrs.filter (fun h => optTruthyStr h.format)
      let neg_total := hdrs.length + fmt_hdrs.length + (if e.bodyRequired then 1 else 0)
      if neg_total == 0 then some ([pos], c1)
      else
        match get_first_error_code? e with
        | none => none
        | some ec =>
            let (missing, c2) :=
              mapWithCounter (fun h n => ep_missing_param_case rng e n h "header" ec) hdrs c1
            let (invalid, c3) :=
              mapWithCounter (fun h n => ep_invalid_format_case rng e n h "header" ec) fmt_hdrs c2
            let (empties, c4) :=
              if e.bodyRequired then ([ep_empty_body_case rng e (c3 + 1) ec], c3 + 1)
              else ([], c3)
            some (pos :: (missing ++ invalid ++ empties), c4)

/-- `BoundaryValueGenerator._has_boundaries`: presence of the *camelCase*
constraint keys in the nested schema (`'minLength' in schema`, ...). -/
def has_boundaries (param : Param) : Bool :=
  param.schema.f.minLength.isSome || param.schema.f.maxLength.isSome ||
  param.schema.f.minimum.isSome || param.schema.f.maximum.isSome ||
  param.schema.f.minItems.isSome || param.schema.f.maxItems.isSome

/-- `BoundaryValueGenerator._property_has_boundaries` (both key spellings). -/
def property_has_boundaries (prop : Schema) : Bool :=
  prop.f.min_length.isSome || prop.f.minLength.isSome ||
  prop.f.max_length.isSome || prop.f.maxLength.isSome ||
  prop.f.minimum.isSome || prop.f.maximum.isSome

/-- `BoundaryValueGenerator._is_valid_boundary_value`: re-checks a candidate
against the schema constraints (string length against `minLength` with
default 0 / `maxLength` with default `+inf`; numbers against
`minimum`/`maximum` with infinite defaults — a comparison against a missing
bound is vacuously true).  Non-string, non-numeric values are valid. -/
def is_valid_boundary_value (param : Param) (value : Value) : Bool :=
  match value with
  | .vstr s =>
      decide (param.schema.f.minLength.getD 0 ≤ (s.length : Int)) &&
      (match param.schema.f.maxLength with
       | none => true
       | some mx => decide ((s.length : Int) ≤ mx))
  | .vnum q =>
      (match param.schema.f.minimum with
       | none => true
       | some mn => PyNum.le mn q) &&
      (match param.schema.f.maximum with
       | none => true
       | some mx => PyNum.le q mx)
  | _ => true

/-- `BoundaryValueGenerator._create_valid_test_data`: fills every required
header, every path parameter and every required query parameter with a valid
synthesized value, except that the parameter under test (matched by name in
its own location) takes the override value. -/
def bva_create_valid_test_data (rng : RandomSource) (e : Endpoint)
    (override_values : List (String × Value)) (param_location : Option String) : TestData :=
  let ovMem := fun (n : String) => (override_values.map (·.1)).contains n
  let ovGet := fun (n : String) =>
    (((override_values.find? (·.1 == n)).map (·.2)).getD .vnull)
  let headers := e.get_required_headers.foldl
    (fun d header =>
      if param_location == some "header" && ovMem header.name then
        dinsert d header.name (ovGet header.name)
      else dinsert d header.name (generate_valid_value rng header))
    []
  let path_params := e.get_path_params.foldl
    (fun d param =>
      if param_location == some "path" && ovMem param.name then
        dinsert d param.name (ovGet param.name)
      else dinsert d param.name (generate_valid_value rng param))
    []
  let query_params := e.get_query_params.foldl
    (fun d param =>
      if param.required then
        if param_location == some "query" && ovMem param.name then
          dinsert d param.name (ovGet param.name)
        else dinsert d param.name (generate_valid_value rng param)
      else d)
    []
  { headers := headers, path_params := path_params, query_params := query_params, body := none }

/-- `BoundaryValueGenerator._create_body_with_property_value`: a body whose
required properties are valid except the target property, which takes the
boundary value. -/
def create_body_with_property_value (rng : RandomSource) (schema : Schema)
    (target_prop_name : String) (target_value : Value) : List (String × Value) :=
  schema.f.properties.foldl
    (fun body prop =>
      let prop_name := prop.f.name
      let is_required := schema.f.required_list.contains prop_name || prop.f.required_flag
      if is_required then
        if prop_name == target_prop_name then dinsert body prop_name target_value
        else dinsert body prop_name (generate_value_from_property rng prop)
      else body)
    []

/-- `BoundaryValueGenerator._create_param_boundary_case`. -/
def create_param_boundary_case (rng : RandomSource) (e : Endpoint) (n : Nat)
    (param : Param) (boundary_value : Value) (is_valid : Bool) (sc ec : Nat) : TestCase :=
  let test_type : TestType := if is_valid then .POSITIVE else .NEGATIVE
  { id := "BVA-" ++ pad3 n
    technique := .BOUNDARY_VALUE_ANALYSIS
    test_type := test_type
    priority := .HIGH
    endpoint := e.path
    http_method := e.method
    test_data := bva_create_valid_test_data rng e [(param.name, boundary_value)] param.inLoc
    expected_result := { status_code := if is_valid then sc else ec }
    tags := e.tags ++ ["boundary_value", test_type.value] }

/-- `BoundaryValueGenerator._create_property_boundary_case` (string-length
boundary on a body property). -/
def create_property_boundary_case (rng : RandomSource) (e : Endpoint) (n : Nat)
    (schema : Schema) (prop_name : String) (length : Int) (is_valid : Bool)
    (boundary_type : String) (sc ec : Nat) : TestCase :=
  let value := if length ≥ 0 then Value.vstr (random_string rng length) else Value.vstr ""
  let test_type : TestType := if is_valid then .POSITIVE else .NEGATIVE
  let td := bva_create_valid_test_data rng e [] none
  { id := "BVA-" ++ pad3 n
    technique := .BOUNDARY_VALUE_ANALYSIS
    test_type := test_type
    priority := .HIGH
    endpoint := e.path
    http_method := e.method
    test_data := { td with body := some (.vobj (create_body_with_property_value rng schema prop_name value)) }
    expected_result := { status_code := if is_valid then sc else ec }
    tags := e.tags ++ ["boundary_value", test_type.value, boundary_type] }

/-- `BoundaryValueGenerator._create_numeric_property_case`. -/
def create_numeric_property_case (rng : RandomSource) (e : Endpoint) (n : Nat)
    (schema : Schema) (prop_name : String) (value : PyNum) (is_valid : Bool)
    (boundary_type : String) (sc ec : Nat) : TestCase :=
  let test_type : TestType := if is_valid then .POSITIVE else .NEGATIVE
  let td := bva_create_valid_test_data rng e [] none
  { id := "BVA-" ++ pad3 n
    technique := .BOUNDARY_VALUE_ANALYSIS
    test_type := test_type
    priority := .HIGH
    endpoint := e.path
    http_method := e.method
    test_data := { td with body := some (.vobj (create_body_with_property_value rng schema prop_name (.vnum value))) }
    expected_result := { status_code := if is_valid then sc else ec }
    tags := e.tags ++ ["boundary_value", test_type.value, boundary_type] }

/-- One planned body-property boundary case of
`BoundaryValueGenerator._generate_property_boundary_cases`: either a
string-length case or a numeric case. -/
inductive PropBoundarySpec where
  | lenCase (length : Int) (is_valid : Bool) (boundary_type : String)
  | numCase (value : PyNum) (is_valid : Bool) (boundary_type : String)

/-- The case plan of `_generate_property_boundary_cases` for one property, in
source order: at/below `min_length`, at/above `max_length`, at/below
`minimum`, at/above `maximum` (each pair only when the bound is declared; the
below-minimum length case only when `min_length > 0`). -/
def property_boundary_spec_list (prop : Schema) : List PropBoundarySpec :=
  (match pyGet2 prop.f.min_length prop.f.minLength with
   | none => []
   | some ml =>
      [.lenCase ml true "min_length"] ++
      (if ml > 0 then [.lenCase (ml - 1) false "below_min"] else [])) ++
  (match pyGet2 prop.f.max_length prop.f.maxLength with
   | none => []
   | some ml => [.lenCase ml true "max_length", .lenCase (ml + 1) false "above_max"]) ++
  (match prop.f.minimum with
   | none => []
   | some m => [.numCase m true "minimum", .numCase (m - 1) false "below_min"]) ++
  (match prop.f.maximum with
   | none => []
   | some m => [.numCase m true "maximum", .numCase (m + 1) false "above_max"])

/-- The body schema of an endpoint (`request_body.get('schema', {})`). -/
def Endpoint.bodySchema (e : Endpoint) : Schema :=
  match e.request_body with
  | some rb => rb.schema
  | none => Schema.emptyDict

/-- `BoundaryValueGenerator.generate`.  Status-code lookups happen inside
each case constructor in the source, so the run only fails on an unparseable
first success/error key when at least one boundary case is due. -/
def bva_generate (rng : RandomSource) (e : Endpoint) (counter : Nat) : Option (List TestCase × Nat) :=
  let bparams := e.parameters.filter has_boundaries
  let param_specs : List (Param × Value) :=
    bparams.flatMap (fun p => (generate_boundary_values rng p).map (fun v => (p, v)))
  let bprops : List Schema :=
    match e.request_body with
    | none => []
    | some rb => rb.schema.f.properties.filter property_has_boundaries
  let prop_specs : List (Schema × PropBoundarySpec) :=
    bprops.flatMap (fun pr => (property_boundary_spec_list pr).map (fun s => (pr, s)))
  if param_specs.isEmpty && prop_specs.isEmpty then some ([], counter)
  else
    match get_first_success_code? e, get_first_error_code? e with
    | some sc, some ec =>
        let (pcases, c1) := mapWithCounter
          (fun (pv : Param × Value) n =>
            create_param_boundary_case rng e n pv.1 pv.2 (is_valid_boundary_value pv.1 pv.2) sc ec)
          param_specs counter
        let (prcases, c2) := mapWithCounter
          (fun (ps : Schema × PropBoundarySpec) n =>
            match ps.2 with
            | .lenCase l v bt => create_property_boundary_case rng e n e.bodySchema ps.1.f.name l v bt sc ec
            | .numCase q v bt => create_numeric_property_case rng e n e.bodySchema ps.1.f.name q v bt sc ec)
          prop_specs c1
        some (pcases ++ prcases, c2)
    | _, _ => none

/-- Python `header in headers` on a list of parameter dicts (`==` on each). -/
def paramMem (p : Param) (l : List Param) : Bool := l.any (fun q => Param.beq p q)

/-- `itertools.product([True, False], repeat=n)`: the leftmost position
varies slowest, `True` before `False`; the first combination is all-`True`. -/
def boolCombos : Nat → List (List Bool)
  | 0 => [[]]
  | n + 1 => ([true, false]).flatMap (fun b => (boolCombos n).map (b :: ·))

/-- `DecisionTableGenerator._create_decision_table_case`. -/
def create_decision_table_case (rng : RandomSource) (e : Endpoint) (n : Nat)
    (headers : List Param) (combination : List Bool) (sc ec : Nat) : TestCase :=
  let present := (headers.zip combination).foldl
    (fun d (pr : Param × Bool) =>
      if pr.2 then dinsert d pr.1.name (generate_valid_value rng pr.1) else d)
    []
  let hdrsDict := e.get_required_headers.foldl
    (fun d header =>
      if !(paramMem header headers) && !(dmem d header.name) then
        dinsert d header.name (generate_valid_value rng header)
      else d)
    present
  let path_params := e.get_path_params.foldl
    (fun d param => dinsert d param.name (generate_valid_value rng param))
    []
  let is_valid := combination.all id
  let test_type : TestType := if is_valid then .POSITIVE else .NEGATIVE
  { id := "DT-" ++ pad3 n
    technique := .DECISION_TABLE
    test_type := test_type
    priority := if is_valid then .MEDIUM else .HIGH
    endpoint := e.path
    http_method := e.method
    test_data := { headers := hdrsDict, path_params := path_params }
    expected_result := { status_code := if is_valid then sc else ec }
    tags := e.tags ++ ["decision_table", test_type.value] }

/-- `DecisionTableGenerator.generate`: applies only with at least two
required headers; takes the first three and enumerates every present/absent
combination.  `_determine_expected_status` parses the success key for the
all-present row and the error key for the others; with ≥ 2 headers both rows
occur, so the run fails iff either key fails to parse. -/
def dt_generate (rng : RandomSource) (e : Endpoint) (counter : Nat) : Option (List TestCase × Nat) :=
  let required_headers := e.get_required_headers
  if required_headers.length ≥ 2 then
    let headers := required_headers.take 3
    let combinations := boolCombos headers.length
    match get_first_success_code? e, get_first_error_code? e with
    | some sc, some ec =>
        some (mapWithCounter
          (fun combo n => create_decision_table_case rng e n headers combo sc ec)
          combinations counter)
    | _, _ => none
  else some ([], counter)

/-- `TestSuite` (`src/domain/models.py`); `metadata` is written but never
read by the engine's summary logic and is omitted. -/
structure TestSuite where
  name : String := ""
  description : String := ""
  test_cases : List TestCase := []

/-- `TestSuite.get_by_technique`. -/
def TestSuite.get_by_technique (s : TestSuite) (t : ISTQBTechnique) : List TestCase :=
  s.test_cases.filter (fun tc => tc.technique == t)

/-- `TestSuite.get_by_type`. -/
def TestSuite.get_by_type (s : TestSuite) (t : TestType) : List TestCase :=
  s.test_cases.filter (fun tc => tc.test_type == t)

/-- `TestSuite.get_by_priority`. -/
def TestSuite.get_by_priority (s : TestSuite) (p : Priority) : List TestCase :=
  s.test_cases.filter (fun tc => tc.priority == p)

/-- `TestSuite._count_by_technique`: iterates the enum in declaration order
and records only non-zero counts. -/
def TestSuite.count_by_technique (s : TestSuite) : List (String × Nat) :=
  istqbMembers.filterMap (fun t =>
    let c := (s.get_by_technique t).length
    if c > 0 then some (t.value, c) else none)

/-- `TestSuite._count_by_type`: always records both polarities. -/
def TestSuite.count_by_type (s : TestSuite) : List (String × Nat) :=
  [(TestType.POSITIVE.value, (s.get_by_type .POSITIVE).length),
   (TestType.NEGATIVE.value, (s.get_by_type .NEGATIVE).length)]

/-- `TestSuite._count_by_priority`: records only non-zero counts. -/
def TestSuite.count_by_priority (s : TestSuite) : List (String × Nat) :=
  priorityMembers.filterMap (fun p =>
    let c := (s.get_by_priority p).length
    if c > 0 then some (p.value, c) else none)

/-- The `summary` object of `TestSuite.to_dict`. -/
structure SuiteSummary where
  total_test_cases : Nat
  by_technique : List (String × Nat)
  by_type : List (String × Nat)
  by_priority : List (String × Nat)

/-- The `summary` key computed by `TestSuite.to_dict`. -/
def TestSuite.summary (s : TestSuite) : SuiteSummary where
  total_test_cases := s.test_cases.length
  by_technique := s.count_by_technique
  by_type := s.count_by_type
  by_priority := s.count_by_priority

/-- `ISTQBTechnique(t)` as a partial constructor: `none` models the
`ValueError` on an unrecognized tag string.  `tool.py` guards each
construction with `t in [e.value for e in ISTQBTechnique]`, which is exactly
`(istqbOfString t).isSome`. -/
def istqbOfString (s : String) : Option ISTQBTechnique :=
  if s == "equivalence_partitioning" then some .EQUIVALENCE_PARTITIONING
  else if s == "boundary_value_analysis" then some .BOUNDARY_VALUE_ANALYSIS
  else if s == "decision_table" then some .DECISION_TABLE
  else if s == "state_transition" then some .STATE_TRANSITION
  else if s == "use_case_testing" then some .USE_CASE_TESTING
  else if s == "syntax_testing" then some .SYNTAX_TESTING
  else none

/-- The technique-selection logic of `TestCaseGeneratorTool.generate_test_cases`
(`tool.py` lines 78-84): `technique_enums` stays `None` when `techniques` is
falsy (absent *or* the empty list), otherwise every requested name that is a
recognized `ISTQBTechnique` value is converted and the rest are dropped. -/
def selectTechniques : Option (List String) → Option (List ISTQBTechnique)
  | none => none
  | some ts => if ts.isEmpty then none else some (ts.filterMap istqbOfString)

/-- The generator registered for a technique in the tool's `self.generators`
mapping (`tool.py` lines 36-40): only the three implemented techniques have
one. -/
def generatorFor (rng : RandomSource) (t : ISTQBTechnique) :
    Option (Endpoint → Nat → Option (List TestCase × Nat)) :=
  match t with
  | .EQUIVALENCE_PARTITIONING => some (ep_generate rng)
  | .BOUNDARY_VALUE_ANALYSIS => some (bva_generate rng)
  | .DECISION_TABLE => some (dt_generate rng)
  | _ => none

/-- Runs one generator instance over all endpoints, threading its run-scoped
case counter; fails as soon as one endpoint raises. -/
def runGeneratorOver (g : Endpoint → Nat → Option (List TestCase × Nat)) :
    List Endpoint → Nat → Option (List TestCase)
  | [], _ => some []
  | e :: es, n =>
      match g e n with
      | none => none
      | some (cs, n') =>
          match runGeneratorOver g es n' with
          | none => none
          | some rest => some (cs ++ rest)

/-- Modelled from the spec: `TestSuiteBuilder` (imported by `tool.py` from
`src/application/test_suite_builder.py`) is not present under `src/`; per
§4.5 and §2 of the design document, `build` runs each requested generator
(all three when `techniques` is absent) over all endpoints, concatenates the
cases, then filters them by the requested polarities.  A requested technique
without a registered generator contributes no cases. -/
def runTechniques (rng : RandomSource) (endpoints : List Endpoint) :
    List ISTQBTechnique → Option (List TestCase)
  | [] => some []
  | t :: ts =>
      let cur :=
        match generatorFor rng t with
        | none => some []
        | some g => runGeneratorOver g endpoints 0
      match cur with
      | none => none
      | some cs => (runTechniques rng endpoints ts).map (cs ++ ·)

/-- The polarity filter of the suite builder (spec §4.5): keep positives iff
`include_positive`, negatives iff `include_negative`. -/
def polarity_keep (include_positive include_negative : Bool) (c : TestCase) : Bool :=
  match c.test_type with
  | .POSITIVE => include_positive
  | .NEGATIVE => include_negative

/-- Modelled from the spec: the case list built by `TestSuiteBuilder.build`
(see `runTechniques`); `techniques = none` runs all three generators. -/
def buildSuiteCases (rng : RandomSource) (endpoints : List Endpoint)
    (techniques : Option (List ISTQBTechnique))
    (include_positive include_negative : Bool) : Option (List TestCase) :=
  (runTechniques rng endpoints
      (techniques.getD [.EQUIVALENCE_PARTITIONING, .BOUNDARY_VALUE_ANALYSIS, .DECISION_TABLE])).map
    (·.filter (polarity_keep include_positive include_negative))

/-- The generation core of `TestCaseGeneratorTool.generate_test_cases`: the
technique-name filter of `tool.py` composed with the (spec-modelled) suite
builder.  File reading/writing is out of scope. -/
def toolGenerateCases (rng : RandomSource) (endpoints : List Endpoint)
    (techniques : Option (List String))
    (include_positive include_negative : Bool) : Option (List TestCase) :=
  buildSuiteCases rng endpoints (selectTechniques techniques) include_positive include_negative

/-! ## Concrete fixtures used by the claims' witnesses -/

/-- An integer schema with declared `minimum`/`maximum`. -/
def schemaIntMinMax (mn mx : PyNum) : Schema :=
  .mk { type := some "integer", minimum := some mn, maximum := some mx }

/-- Scenario A's endpoint: `GET /items/{id}` with an integer path parameter
`id` (`minimum=1`, `maximum=1000`), success `200`, error `404`. -/
def eItemsId : Endpoint where
  path := "/items/{id}"
  method := "GET"
  parameters := [{ name := "id", inLoc := some "path", required := true,
                   type := some "integer", schema := schemaIntMinMax 1 1000 }]
  responses := ["200", "404"]

/-- A required header parameter with no constraints. -/
def hdrParam (nm : String) : Param := { name := nm, inLoc := some "header", required := true }

/-- An endpoint with exactly one required header. -/
def eOneHeader : Endpoint where
  path := "/a"
  method := "GET"
  parameters := [hdrParam "X-Api-Key"]
  responses := ["200", "404"]

/-- Scenario B's endpoint: `POST /orders` with two required headers. -/
def eOrders : Endpoint where
  path := "/orders"
  method := "POST"
  parameters := [hdrParam "X-Api-Key", hdrParam "X-Client-Id"]
  responses := ["201", "400"]

/-- An endpoint with no parameters, body or responses. -/
def eNoInputs : Endpoint := { path := "/m", method := "GET" }

/-- A required query parameter whose string schema declares
`minLength=5`, `maxLength=8`. -/
def strParam5 : Param where
  name := "s"
  inLoc := some "query"
  required := true
  schema := .mk { type := some "string", minLength := some 5, maxLength := some 8 }

/-- An endpoint holding `strParam5`. -/
def eStr5 : Endpoint where
  path := "/s"
  method := "GET"
  parameters := [strParam5]
  responses := ["200", "422"]

/-- A flat body-property dict: `email`, type `string`, format `email`, no
example (the shape produced by the analyzer's `_property_to_dict`). -/
def emailProperty : Schema :=
  .mk { type := some "string", format := some "email", name := "email" }

/-- A body property viewed as the `param` argument of
`generate_invalid_value`/`generate_valid_value`: properties are flat dicts,
so their `format`/`type`/`example` sit at top level and the nested `schema`
key is absent (`prop.get('schema', {})` yields `{}`). -/
def propAsParam (prop : Schema) : Param where
  name := prop.f.name
  required := prop.f.required_flag
  type := prop.f.type
  format := prop.f.format
  exampleVal := prop.f.exampleVal
  schema := Schema.emptyDict

/-! ## C1 -/

/-- C1: on Scenario A's endpoint the Boundary Value generator produces
exactly six cases for the `id` parameter, carrying boundary values
0 (negative, 404), 1 (positive, 200), 2 (positive, 200), 999 (positive,
200), 1000 (positive, 200) and 1001 (negative, 404), in that order. -/
theorem c1_bva_scenario_a (rng : RandomSource) :
    (bva_generate rng eItemsId 0).map (fun p =>
        p.1.map (fun c =>
          (dget? c.test_data.path_params "id", c.test_type, c.expected_result.status_code)))
      = some
        [(some (.vnum 0), .NEGATIVE, 404),
         (some (.vnum 1), .POSITIVE, 200),
         (some (.vnum 2), .POSITIVE, 200),
         (some (.vnum 999), .POSITIVE, 200),
         (some (.vnum 1000), .POSITIVE, 200),
         (some (.vnum 1001), .NEGATIVE, 404)] ∧
    (bva_generate rng eItemsId 0).map (fun p => p.1.length) = some 6 := by
  exact ⟨rfl, rfl⟩

/-! ## C6 -/

/-- C6: for an integer- or number-typed schema (with no example to
short-circuit synthesis), the valid value is the midpoint of
`[minimum, maximum]` — floored for integers — defaulting to `[1, 1000]` for
integers and `[0.0, 1000.0]` for numbers, and the boundary list is
`minimum-1, minimum, minimum+ε, maximum-ε, maximum, maximum+1` with `ε = 1`
for integers and `0.1` for numbers, each triple present only when the
corresponding limit is declared. -/
theorem c6_numeric_synthesis (rng : RandomSource) (p : Param)
    (hex : exampleOf (pyGet2 p.schema.f.exampleVal p.exampleVal) = none) :
    (p.schema.f.type = some "integer" →
      generate_valid_value rng p =
        .vnum ((p.schema.f.minimum.getD 1 + p.schema.f.maximum.getD 1000).floorDiv 2)) ∧
    (p.schema.f.type = some "number" →
      generate_valid_value rng p =
        .vnum ((p.schema.f.minimum.getD 0 + p.schema.f.maximum.getD 1000) / 2)) ∧
    (p.schema.f.type = some "integer" →
      generate_boundary_values rng p =
        (match p.schema.f.minimum with
         | none => []
         | some m => [.vnum (m - 1), .vnum m, .vnum (m + 1)]) ++
        (match p.schema.f.maximum with
         | none => []
         | some mx => [.vnum (mx - 1), .vnum mx, .vnum (mx + 1)])) ∧
    (p.schema.f.type = some "number" →
      generate_boundary_values rng p =
        (match p.schema.f.minimum with
         | none => []
         | some m => [.vnum (m - 1), .vnum m, .vnum (m + 1/10)]) ++
        (match p.schema.f.maximum with
         | none => []
         | some mx => [.vnum (mx - 1/10), .vnum mx, .vnum (mx + 1)])) := by
  refine ⟨fun ht => ?_, fun ht => ?_, fun ht => ?_, fun ht => ?_⟩
  · simp [generate_valid_value, paramEffType, ht, hex, generate_valid_integer]
  · simp [generate_valid_value, paramEffType, ht, hex, generate_valid_number]
  · rcases hmin : p.schema.f.minimum with _ | m <;>
      rcases hmax : p.schema.f.maximum with _ | mx <;>
      simp [generate_boundary_values, paramEffType, ht,
            generate_numeric_boundaries, hmin, hmax]
  · rcases hmin : p.schema.f.minimum with _ | m <;>
      rcases hmax : p.schema.f.maximum with _ | mx <;>
      simp [generate_boundary_values, paramEffType, ht,
            generate_numeric_boundaries, hmin, hmax]

/-- The `id` parameter of Scenario A, reused as a concrete integer-typed
parameter. -/
def idParam : Param where
  name := "id"
  inLoc := some "path"
  required := true
  type := some "integer"
  schema := schemaIntMinMax 1 1000

/-- Witness for C6 at `idParam` (integer, `minimum=1`, `maximum=1000`). -/
theorem c6_numeric_synthesis_witness :
    generate_valid_value rng0 idParam =
      .vnum ((idParam.schema.f.minimum.getD 1 + idParam.schema.f.maximum.getD 1000).floorDiv 2) ∧
    generate_boundary_values rng0 idParam =
      (match idParam.schema.f.minimum with
       | none => []
       | some m => [.vnum (m - 1), .vnum m, .vnum (m + 1)]) ++
      (match idParam.schema.f.maximum with
       | none => []
       | some mx => [.vnum (mx - 1), .vnum mx, .vnum (mx + 1)]) :=
  ⟨(c6_numeric_synthesis rng0 idParam rfl).1 rfl,
   (c6_numeric_synthesis rng0 idParam rfl).2.2.1 rfl⟩

/-! ## C7 -/

/-- C7 (code evaluated at the failing input): `generate_invalid_value` on the
flat body property `email` (type `string`, format `email`, no example) with
violation kind `invalid_format` returns the random `INVALID_FORMAT_` sentinel
— not the literal `"not-an-email"` — because the function reads the format
from the absent nested `schema` dict only. -/
theorem c7_email_invalid_format (rng : RandomSource) :
    generate_invalid_value rng (propAsParam emailProperty) "invalid_format"
      = .vstr ("INVALID_FORMAT_" ++ rng.randStr 5) ∧
    Value.beq (generate_invalid_value rng0 (propAsParam emailProperty) "invalid_format")
      (.vstr "not-an-email") = false :=
  ⟨rfl, rfl⟩

/-! ## C9 -/

/-- C9: a schema carrying an explicit (non-null) example makes
`generate_valid_value` return exactly that example, independently of the
randomness source — so two invocations agree. -/
theorem c9_example_precedence (p : Param) (ex : Value)
    (hx : p.schema.f.exampleVal = some ex) (hnn : ex ≠ .vnull) :
    ∀ r1 r2 : RandomSource,
      generate_valid_value r1 p = ex ∧
      generate_valid_value r2 p = generate_valid_value r1 p := by
  have key : ∀ r : RandomSource, generate_valid_value r p = ex := by
    intro r
    cases ex with
    | vnull => exact absurd rfl hnn
    | vbool b => simp [generate_valid_value, hx, pyGet2, exampleOf]
    | vnum q => simp [generate_valid_value, hx, pyGet2, exampleOf]
    | vstr s => simp [generate_valid_value, hx, pyGet2, exampleOf]
    | varr xs => simp [generate_valid_value, hx, pyGet2, exampleOf]
    | vobj fs => simp [generate_valid_value, hx, pyGet2, exampleOf]
  exact fun r1 r2 => ⟨key r1, (key r2).trans (key r1).symm⟩

/-- A parameter whose schema carries an explicit example. -/
def exampleParam : Param :=
  { name := "x", schema := .mk { exampleVal := some (.vstr "fixed") } }

/-- A second, different randomness oracle. -/
def rng1 : RandomSource where
  randStr := fun n => String.mk (List.replicate n 'b')
  randBool := false
  choice := fun l => l.getLastD .vnull
  randInt := fun _ b => b
  uuidStr := "11111111-1111-4111-8111-111111111111"
  todayStr := "2027-02-02"
  nowStr := "2027-02-02T23:59:59"

/-- Witness for C9: two different oracles both return the fixed example. -/
theorem c9_example_precedence_witness :
    generate_valid_value rng0 exampleParam = .vstr "fixed" ∧
    generate_valid_value rng1 exampleParam = generate_valid_value rng0 exampleParam :=
  c9_example_precedence exampleParam (.vstr "fixed") rfl
    (fun h => Value.noConfusion h) rng0 rng1

/-! ## C10 -/

/-- `.value` is injective on techniques (distinct tag strings). -/
theorem istqb_value_inj {a b : ISTQBTechnique} (h : a.value = b.value) : a = b := by
  cases a <;> cases b <;> first | rfl | exact absurd h (by decide)

/-- Every technique occurs in the enum iteration order. -/
theorem istqb_mem_members (t : ISTQBTechnique) : t ∈ istqbMembers := by
  cases t <;> simp [istqbMembers]

/-- `.value` is injective on priorities. -/
theorem priority_value_inj {a b : Priority} (h : a.value = b.value) : a = b := by
  cases a <;> cases b <;> first | rfl | exact absurd h (by decide)

/-- Every priority occurs in the enum iteration order. -/
theorem priority_mem_members (p : Priority) : p ∈ priorityMembers := by
  cases p <;> simp [priorityMembers]

/-- A key appears in a count map built by `filterMap` over the enum members
only if its own count is positive. -/
theorem count_key_mem_pos {α : Type} (members : List α) (val : α → String) (cnt : α → Nat)
    (hinj : ∀ a b : α, val a = val b → a = b) (t : α)
    (h : val t ∈ (members.filterMap
        (fun x => if cnt x > 0 then some (val x, cnt x) else none)).map (·.1)) :
    cnt t > 0 := by
  rw [List.mem_map] at h
  obtain ⟨pair, hp, hfst⟩ := h
  rw [List.mem_filterMap] at hp
  obtain ⟨x, _, hx⟩ := hp
  by_cases hc : cnt x > 0
  · rw [if_pos hc] at hx
    cases hx
    exact hinj x t hfst ▸ hc
  · rw [if_neg hc] at hx
    cases hx

/-- A member with a positive count contributes its entry to the count map. -/
theorem count_entry_mem_of_pos {α : Type} (members : List α) (val : α → String) (cnt : α → Nat)
    (t : α) (ht : t ∈ members) (hc : cnt t > 0) :
    (val t, cnt t) ∈ members.filterMap
      (fun x => if cnt x > 0 then some (val x, cnt x) else none) :=
  List.mem_filterMap.mpr ⟨t, ht, by rw [if_pos hc]⟩

/-- C10: the summary of `TestSuite.to_dict` always lists both polarity keys
in `by_type`, omits every technique and every priority whose count is zero
(and lists those with non-zero counts), and reports `total_test_cases` equal
to the number of cases. -/
theorem c10_summary_shape (s : TestSuite) :
    s.summary.total_test_cases = s.test_cases.length ∧
    s.summary.by_type.map (·.1) = [TestType.POSITIVE.value, TestType.NEGATIVE.value] ∧
    (∀ t : ISTQBTechnique, (s.get_by_technique t).length = 0 →
        t.value ∉ s.summary.by_technique.map (·.1)) ∧
    (∀ t : ISTQBTechnique, (s.get_by_technique t).length ≠ 0 →
        (t.value, (s.get_by_technique t).length) ∈ s.summary.by_technique) ∧
    (∀ pr : Priority, (s.get_by_priority pr).length = 0 →
        pr.value ∉ s.summary.by_priority.map (·.1)) ∧
    (∀ pr : Priority, (s.get_by_priority pr).length ≠ 0 →
        (pr.value, (s.get_by_priority pr).length) ∈ s.summary.by_priority) := by
  refine ⟨rfl, rfl, ?_, ?_, ?_, ?_⟩
  · intro t h0 hmem
    have hpos : (s.get_by_technique t).length > 0 :=
      count_key_mem_pos istqbMembers ISTQBTechnique.value
        (fun x => (s.get_by_technique x).length) (fun a b => istqb_value_inj) t hmem
    omega
  · intro t hne
    exact count_entry_mem_of_pos istqbMembers ISTQBTechnique.value
      (fun x => (s.get_by_technique x).length) t (istqb_mem_members t)
      (Nat.pos_of_ne_zero hne)
  · intro pr h0 hmem
    have hpos : (s.get_by_priority pr).length > 0 :=
      count_key_mem_pos priorityMembers Priority.value
        (fun x => (s.get_by_priority x).length) (fun a b => priority_value_inj) pr hmem
    omega
  · intro pr hne
    exact count_entry_mem_of_pos priorityMembers Priority.value
      (fun x => (s.get_by_priority x).length) pr (priority_mem_members pr)
      (Nat.pos_of_ne_zero hne)

/-- An empty suite, for exercising the summary at a concrete point. -/
def emptySuite : TestSuite := { name := "w", description := "w" }

/-- Witness for C10 at the empty suite. -/
theorem c10_summary_shape_witness :
    emptySuite.summary.total_test_cases = emptySuite.test_cases.length ∧
    emptySuite.summary.by_type.map (·.1) = ["positive", "negative"] :=
  ⟨(c10_summary_shape emptySuite).1, (c10_summary_shape emptySuite).2.1⟩

/-! ## C8 -/

/-- C8 (amended): for every *non-empty* requested technique list, the tool's
selection step never raises — it converts exactly the recognized names and
silently drops the rest — and the suite is built from exactly that recognized
subset. -/
theorem c8_technique_filter (rng : RandomSource) (endpoints : List Endpoint)
    (ts : List String) (hne : ts ≠ []) (incP incN : Bool) :
    selectTechniques (some ts) = some (ts.filterMap istqbOfString) ∧
    toolGenerateCases rng endpoints (some ts) incP incN
      = buildSuiteCases rng endpoints (some (ts.filterMap istqbOfString)) incP incN := by
  have hsel : selectTechniques (some ts) = some (ts.filterMap istqbOfString) := by
    cases ts with
    | nil => exact absurd rfl hne
    | cons t ts' => simp [selectTechniques]
  exact ⟨hsel, by simp [toolGenerateCases, hsel]⟩

/-- Witness for C8 at a concrete request mixing a recognized and an
unrecognized name. -/
theorem c8_technique_filter_witness :
    selectTechniques (some ["boundary_value_analysis", "bogus"])
      = some (["boundary_value_analysis", "bogus"].filterMap istqbOfString) ∧
    toolGenerateCases rng0 [eItemsId] (some ["boundary_value_analysis", "bogus"]) true true
      = buildSuiteCases rng0 [eItemsId]
          (some (["boundary_value_analysis", "bogus"].filterMap istqbOfString)) true true :=
  c8_technique_filter rng0 [eItemsId] ["boundary_value_analysis", "bogus"]
    (by decide) true true

/-- Counterexample to C8 as stated: supplying the *empty* list is falsy in
`tool.py`, so `technique_enums` stays `None` and all three generators run —
the suite is then not built from the (empty) recognized subset of the
request: on an endpoint with no inputs it still contains an
equivalence-partitioning case. -/
theorem c8_counterexample :
    selectTechniques (some ([] : List String)) = none ∧
    ([] : List String).filterMap istqbOfString = [] ∧
    (toolGenerateCases rng0 [eNoInputs] (some []) true true).map
        (fun l => l.map (·.technique)) = some [.EQUIVALENCE_PARTITIONING] :=
  ⟨rfl, rfl, rfl⟩

/-! ## Shared lemmas about the counter-threading map, combinations and dicts -/

/-- Unfolding equation for `mapWithCounter` on a cons cell. -/
theorem mapWithCounter_cons {α β : Type} (f : α → Nat → β) (x : α) (xs : List α) (n : Nat) :
    mapWithCounter f (x :: xs) n
      = (f x (n + 1) :: (mapWithCounter f xs (n + 1)).1, (mapWithCounter f xs (n + 1)).2) := by
  cases h : mapWithCounter f xs (n + 1) with
  | mk ys n' => simp [mapWithCounter, h]

/-- `mapWithCounter` preserves the list length. -/
theorem mapWithCounter_length {α β : Type} (f : α → Nat → β) (l : List α) (n : Nat) :
    (mapWithCounter f l n).1.length = l.length := by
  induction l generalizing n with
  | nil => rfl
  | cons x xs ih => rw [mapWithCounter_cons]; simp [ih]

/-- Every element produced by `mapWithCounter` comes from some input element
at some counter value. -/
theorem mapWithCounter_mem {α β : Type} (f : α → Nat → β) (l : List α) (n : Nat) (b : β)
    (hb : b ∈ (mapWithCounter f l n).1) : ∃ x ∈ l, ∃ m, b = f x m := by
  induction l generalizing n with
  | nil => cases hb
  | cons x xs ih =>
      rw [mapWithCounter_cons] at hb
      rw [List.mem_cons] at hb
      rcases hb with hb | hb
      · exact ⟨x, List.mem_cons_self x xs, n + 1, hb⟩
      · obtain ⟨x', hx', m, hm⟩ := ih (n + 1) hb
        exact ⟨x', List.mem_cons_of_mem x hx', m, hm⟩

/-- Counting over `mapWithCounter` when the predicate is insensitive to the
counter. -/
theorem mapWithCounter_countP {α β : Type} (f : α → Nat → β) (p : β → Bool) (q : α → Bool)
    (hq : ∀ x m, p (f x m) = q x) (l : List α) (n : Nat) :
    (mapWithCounter f l n).1.countP p = l.countP q := by
  induction l generalizing n with
  | nil => rfl
  | cons x xs ih => rw [mapWithCounter_cons]; simp [List.countP_cons, hq, ih]

/-- `boolCombos n` has `2 ^ n` entries. -/
theorem boolCombos_length (n : Nat) : (boolCombos n).length = 2 ^ n := by
  induction n with
  | zero => rfl
  | succ k ih =>
      simp [boolCombos, ih, Nat.pow_succ]
      omega

/-- Every combination in `boolCombos n` has length `n`. -/
theorem boolCombos_mem_length (n : Nat) (c : List Bool) (hc : c ∈ boolCombos n) :
    c.length = n := by
  induction n generalizing c with
  | zero =>
      simp [boolCombos] at hc
      simp [hc]
  | succ k ih =>
      simp [boolCombos] at hc
      rcases hc with ⟨c', hc', rfl⟩ | ⟨c', hc', rfl⟩ <;> simp [ih c' hc']

/-- Exactly one combination (the all-`true` one) satisfies `all id`. -/
theorem boolCombos_countP_all (n : Nat) :
    (boolCombos n).countP (fun c => c.all id) = 1 := by
  induction n with
  | zero => rfl
  | succ k ih =>
      have htrue : ((boolCombos k).map (true :: ·)).countP (fun c => c.all id) = 1 := by
        rw [List.countP_map]
        simpa using ih
      have hfalse : ((boolCombos k).map (false :: ·)).countP (fun c => c.all id) = 0 := by
        rw [List.countP_map]
        simp [Function.comp]
      simp [boolCombos, List.countP_append, htrue, hfalse]

/-- Inserting a key makes it a key of the dict. -/
theorem mem_dkeys_dinsert_self (d : List (String × Value)) (k : String) (v : Value) :
    k ∈ dkeys (dinsert d k v) := by
  induction d with
  | nil => simp [dinsert, dkeys]
  | cons kv rest ih =>
      rcases kv with ⟨k', v'⟩
      by_cases h : k' == k
      · simp [dinsert, h, dkeys]
      · simp only [dinsert, h, Bool.false_eq_true, if_false]
        simp [dkeys] at ih ⊢
        exact Or.inr ih

/-- Insertion preserves the existing keys. -/
theorem mem_dkeys_dinsert_of_mem (d : List (String × Value)) (k : String) (v : Value)
    (k' : String) (h : k' ∈ dkeys d) : k' ∈ dkeys (dinsert d k v) := by
  induction d with
  | nil => cases h
  | cons kv rest ih =>
      rcases kv with ⟨a, b⟩
      by_cases hak : a == k
      · have ha : a = k := by simpa using hak
        simp [dkeys] at h
        rcases h with h | h
        · simp [dinsert, hak, dkeys, ha ▸ h]
        · simp [dinsert, hak, dkeys]
          exact Or.inr h
      · simp [dkeys] at h
        rcases h with h | h
        · simp [dinsert, hak, dkeys, h]
        · simp [dinsert, hak, dkeys]
          exact Or.inr (by simpa [dkeys] using ih (by simpa [dkeys] using h))

/-- A fold whose step never removes keys preserves key membership. -/
theorem mem_dkeys_foldl {α : Type} (step : List (String × Value) → α → List (String × Value))
    (hstep : ∀ d x k, k ∈ dkeys d → k ∈ dkeys (step d x)) (l : List α)
    (d : List (String × Value)) (k : String) (h : k ∈ dkeys d) :
    k ∈ dkeys (l.foldl step d) := by
  induction l generalizing d with
  | nil => exact h
  | cons x xs ih => exact ih (step d x) (hstep d x k h)

/-- When a combination is all-`true`, the present-header fold of the
decision-table case records every header name. -/
theorem zip_fold_all_names (rng : RandomSource) (headers : List Param) (combo : List Bool)
    (hlen : combo.length = headers.length) (hall : combo.all id = true)
    (d : List (String × Value)) (h : Param) (hh : h ∈ headers) :
    h.name ∈ dkeys ((headers.zip combo).foldl
      (fun d pr => if pr.2 then dinsert d pr.1.name (generate_valid_value rng pr.1) else d) d) := by
  induction headers generalizing combo d with
  | nil => cases hh
  | cons hd tl ih =>
      cases combo with
      | nil => simp at hlen
      | cons b rest =>
          rw [List.all_cons, Bool.and_eq_true] at hall
          have hb : b = true := hall.1
          have hrest : rest.all id = true := hall.2
          have hlen' : rest.length = tl.length := by simpa using hlen
          subst hb
          have hstep : ∀ (d' : List (String × Value)) (x : Param × Bool) (k : String),
              k ∈ dkeys d' → k ∈ dkeys (if x.2 then dinsert d' x.1.name (generate_valid_value rng x.1) else d') := by
            intro d' x k hk
            by_cases hx : x.2 = true
            · simpa [hx] using mem_dkeys_dinsert_of_mem d' x.1.name _ k hk
            · simpa [hx] using hk
          rcases List.mem_cons.mp hh with rfl | hh'
          · simp only [List.zip_cons_cons, List.foldl_cons, if_pos rfl]
            exact mem_dkeys_foldl _ hstep (tl.zip rest) _ _
              (mem_dkeys_dinsert_self d h.name _)
          · simp only [List.zip_cons_cons, List.foldl_cons, if_pos rfl]
            exact ih rest hlen' hrest _ hh'

/-! ## C2 -/

/-- C2 (amended): for an endpoint with `k` required headers, `2 ≤ k ≤ 3`, the
Decision Table generator emits exactly `2^k` cases, exactly one of them is
positive, and any positive case carries every required header in its test
data (the all-present combination). -/
theorem c2_dt_structure (rng : RandomSource) (e : Endpoint) (c0 : Nat)
    (cs : List TestCase) (n : Nat)
    (h2 : 2 ≤ e.get_required_headers.length)
    (h3 : e.get_required_headers.length ≤ 3)
    (hgen : dt_generate rng e c0 = some (cs, n)) :
    cs.length = 2 ^ e.get_required_headers.length ∧
    cs.countP (fun c => c.test_type == TestType.POSITIVE) = 1 ∧
    ∀ c ∈ cs, c.test_type = TestType.POSITIVE →
      ∀ h ∈ e.get_required_headers, h.name ∈ dkeys c.test_data.headers := by
  have htake : e.get_required_headers.take 3 = e.get_required_headers :=
    List.take_of_length_le h3
  rw [dt_generate, if_pos h2, htake] at hgen
  rcases hsc : get_first_success_code? e with _ | sc
  · rw [hsc] at hgen
    cases hgen
  rcases hec : get_first_error_code? e with _ | ec
  · rw [hsc, hec] at hgen
    cases hgen
  rw [hsc, hec] at hgen
  have hpair := Option.some.inj hgen
  have hcs : cs = (mapWithCounter
      (fun combo n => create_decision_table_case rng e n e.get_required_headers combo sc ec)
      (boolCombos e.get_required_headers.length) c0).1 := by
    rw [hpair]
  have htype : ∀ (combo : List Bool) (m : Nat),
      (create_decision_table_case rng e m e.get_required_headers combo sc ec).test_type
        = if combo.all id then TestType.POSITIVE else TestType.NEGATIVE := by
    intro combo m
    rfl
  refine ⟨?_, ?_, ?_⟩
  · rw [hcs, mapWithCounter_length, boolCombos_length]
  · rw [hcs, mapWithCounter_countP _ _ (fun combo => combo.all id)]
    · exact boolCombos_countP_all _
    · intro combo m
      rw [htype]
      by_cases hall : combo.all id = true <;> simp [hall] <;> rfl
  · intro c hc hpos h hh
    rw [hcs] at hc
    obtain ⟨combo, hcombo, m, rfl⟩ := mapWithCounter_mem _ _ _ _ hc
    have hall : combo.all id = true := by
      by_contra hno
      rw [htype combo m, if_neg hno] at hpos
      cases hpos
    have hlen : combo.length = e.get_required_headers.length :=
      boolCombos_mem_length _ _ hcombo
    show h.name ∈ dkeys (e.get_required_headers.foldl
      (fun d header =>
        if !(paramMem header e.get_required_headers) && !(dmem d header.name) then
          dinsert d header.name (generate_valid_value rng header)
        else d)
      ((e.get_required_headers.zip combo).foldl
        (fun d pr => if pr.2 then dinsert d pr.1.name (generate_valid_value rng pr.1) else d) []))
    refine mem_dkeys_foldl _ ?_ _ _ _
      (zip_fold_all_names rng e.get_required_headers combo hlen hall [] h hh)
    intro d x k hk
    by_cases hx : (!(paramMem x e.get_required_headers) && !(dmem d x.name)) = true
    · simpa [hx] using mem_dkeys_dinsert_of_mem d x.name _ k hk
    · simpa [hx] using hk

/-- The decision-table run on `eOrders` (two required headers). -/
def dtOrdersPair : List TestCase × Nat := (dt_generate rng0 eOrders 0).getD ([], 0)

/-- Witness for C2 on `eOrders`: 4 cases, exactly one positive. -/
theorem c2_dt_structure_witness :
    dtOrdersPair.1.length = 2 ^ eOrders.get_required_headers.length ∧
    dtOrdersPair.1.countP (fun c => c.test_type == TestType.POSITIVE) = 1 :=
  ⟨(c2_dt_structure rng0 eOrders 0 dtOrdersPair.1 dtOrdersPair.2
      (by decide) (by decide) rfl).1,
   (c2_dt_structure rng0 eOrders 0 dtOrdersPair.1 dtOrdersPair.2
      (by decide) (by decide) rfl).2.1⟩

/-- Counterexample to C2 as stated: with exactly one required header
(`k = 1 ≤ 3`) the generator's `len(required_headers) >= 2` guard yields zero
cases, not `2^1 = 2`. -/
theorem c2_counterexample :
    eOneHeader.get_required_headers.length = 1 ∧
    dt_generate rng0 eOneHeader 0 = some ([], 0) ∧
    (0 == 2 ^ eOneHeader.get_required_headers.length) = false :=
  ⟨rfl, rfl, rfl⟩

/-! ## C5 -/

/-- C5: when a parameter's string schema declares `minLength = m > 0`, any
boundary value of length `m - 1` the generator produced is judged invalid by
`_is_valid_boundary_value` against the same `minLength`, so the resulting
boundary case is tagged negative — generation and judgment cannot disagree
on it. -/
theorem c5_minlength_boundary_negative (rng : RandomSource) (p : Param) (m : Int)
    (hm : p.schema.f.minLength = some m) (hpos : 0 < m) :
    ∀ v ∈ generate_boundary_values rng p, ∀ s : String, v = .vstr s →
      (s.length : Int) = m - 1 →
      is_valid_boundary_value p v = false ∧
      ∀ (e : Endpoint) (n sc ec : Nat),
        (create_param_boundary_case rng e n p v (is_valid_boundary_value p v) sc ec).test_type
          = TestType.NEGATIVE := by
  intro v hv s hvs hslen
  subst hvs
  have hlt : ¬ (m ≤ (s.length : Int)) := by
    rw [hslen]
    omega
  have hval : is_valid_boundary_value p (.vstr s) = false := by
    simp [is_valid_boundary_value, hm, hlt]
  refine ⟨hval, fun e n sc ec => ?_⟩
  simp [create_param_boundary_case, hval]

/-- Witness for C5 on `strParam5` (`minLength = 5`): the length-4 boundary
value is judged invalid and its case is negative. -/
theorem c5_minlength_boundary_negative_witness :
    is_valid_boundary_value strParam5 (.vstr "aaaa") = false ∧
    (create_param_boundary_case rng0 eStr5 1 strParam5 (.vstr "aaaa")
        (is_valid_boundary_value strParam5 (.vstr "aaaa")) 200 422).test_type
      = TestType.NEGATIVE := by
  have hv : Value.vstr "aaaa" ∈ generate_boundary_values rng0 strParam5 := by
    show Value.vstr "aaaa" ∈
      [Value.vstr "aaaa", Value.vstr "aaaaa", Value.vstr "aaaaaa",
       Value.vstr "aaaaaaa", Value.vstr "aaaaaaaa", Value.vstr "aaaaaaaaa"]
    exact List.mem_cons_self _ _
  have h := c5_minlength_boundary_negative rng0 strParam5 5 rfl (by decide)
    (Value.vstr "aaaa") hv "aaaa" rfl (by decide)
  exact ⟨h.1, h.2 eStr5 1 200 422⟩

/-! ## C3 -/

/-- The polarity-status invariant of the claim: a negative case's status is
the integer of an error-response key (or the 400 fallback when that subset is
empty); a positive case's status is the integer of a success key (or 200). -/
def status_matches (e : Endpoint) (c : TestCase) : Prop :=
  (c.test_type = TestType.NEGATIVE →
      (∃ k ∈ e.get_error_responses, pyIntOfCode k = some c.expected_result.status_code) ∨
      (e.get_error_responses = [] ∧ c.expected_result.status_code = 400)) ∧
  (c.test_type = TestType.POSITIVE →
      (∃ k ∈ e.get_success_responses, pyIntOfCode k = some c.expected_result.status_code) ∨
      (e.get_success_responses = [] ∧ c.expected_result.status_code = 200))

/-- Intermediate: a case's status is the parsed first success code when
positive, the parsed first error code when negative. -/
def code_tagged (e : Endpoint) (c : TestCase) : Prop :=
  (c.test_type = TestType.POSITIVE →
      get_first_success_code? e = some c.expected_result.status_code) ∧
  (c.test_type = TestType.NEGATIVE →
      get_first_error_code? e = some c.expected_result.status_code)

/-- The parsed first success code is the integer of a success key, or the 200
fallback. -/
theorem success_code_cases (e : Endpoint) (sc : Nat)
    (h : get_first_success_code? e = some sc) :
    (∃ k ∈ e.get_success_responses, pyIntOfCode k = some sc) ∨
    (e.get_success_responses = [] ∧ sc = 200) := by
  unfold get_first_success_code? at h
  rcases hks : e.get_success_responses with _ | ⟨k, ks⟩ <;> rw [hks] at h
  · exact Or.inr ⟨rfl, (Option.some.inj h).symm⟩
  · exact Or.inl ⟨k, List.mem_cons_self _ _, h⟩

/-- The parsed first error code is the integer of an error key, or the 400
fallback. -/
theorem error_code_cases (e : Endpoint) (ec : Nat)
    (h : get_first_error_code? e = some ec) :
    (∃ k ∈ e.get_error_responses, pyIntOfCode k = some ec) ∨
    (e.get_error_responses = [] ∧ ec = 400) := by
  unfold get_first_error_code? at h
  rcases hks : e.get_error_responses with _ | ⟨k, ks⟩ <;> rw [hks] at h
  · exact Or.inr ⟨rfl, (Option.some.inj h).symm⟩
  · exact Or.inl ⟨k, List.mem_cons_self _ _, h⟩

/-- `code_tagged` implies the claim's invariant. -/
theorem status_matches_of_code_tagged (e : Endpoint) (c : TestCase)
    (h : code_tagged e c) : status_matches e c :=
  ⟨fun hneg => error_code_cases e _ (h.2 hneg),
   fun hpos => success_code_cases e _ (h.1 hpos)⟩

/-- Every case assembled by the equivalence-partitioning generator from the
parsed codes satisfies `code_tagged`. -/
theorem ep_members_tagged (rng : RandomSource) (e : Endpoint) (sc ec : Nat)
    (hsc : get_first_success_code? e = some sc)
    (hec : get_first_error_code? e = some ec)
    (n1 n2 n3 : Nat) (hs1 hs2 : List Param) (emp : List TestCase)
    (hemp : ∀ c ∈ emp, code_tagged e c) :
    ∀ c ∈ ep_all_valid_case rng e n1 sc ::
        ((mapWithCounter (fun h n => ep_missing_param_case rng e n h "header" ec) hs1 n2).1 ++
         (mapWithCounter (fun h n => ep_invalid_format_case rng e n h "header" ec) hs2 n3).1 ++ emp),
      code_tagged e c := by
  intro c hc
  rw [List.mem_cons] at hc
  rcases hc with rfl | hc
  · exact ⟨fun _ => hsc, fun h => TestType.noConfusion h⟩
  rw [List.mem_append, List.mem_append] at hc
  rcases hc with (hc | hc) | hc
  · obtain ⟨x, hx, m, rfl⟩ := mapWithCounter_mem _ _ _ _ hc
    exact ⟨fun h => TestType.noConfusion h, fun _ => hec⟩
  · obtain ⟨x, hx, m, rfl⟩ := mapWithCounter_mem _ _ _ _ hc
    exact ⟨fun h => TestType.noConfusion h, fun _ => hec⟩
  · exact hemp c hc

/-- Inversion of `ep_generate`: every produced case is code-tagged. -/
theorem ep_code_tagged (rng : RandomSource) (e : Endpoint) (c0 : Nat)
    (cs : List TestCase) (n : Nat) (hgen : ep_generate rng e c0 = some (cs, n)) :
    ∀ c ∈ cs, code_tagged e c := by
  unfold ep_generate at hgen
  rcases hsc : get_first_success_code? e with _ | sc
  · rw [hsc] at hgen
    simp at hgen
  rw [hsc] at hgen
  dsimp only at hgen
  split at hgen
  all_goals split at hgen
  case isTrue.isTrue hz =>
    injection hgen with h
    injection h with h1 h2
    subst h1
    intro c hc
    rw [List.mem_singleton] at hc
    subst hc
    exact ⟨fun _ => hsc, fun h => TestType.noConfusion h⟩
  case isTrue.isFalse hz =>
    split at hgen
    next => simp at hgen
    next ec hec =>
      injection hgen with h
      injection h with h1 h2
      subst h1
      exact ep_members_tagged rng e sc ec hsc hec _ _ _ _ _ _
        (fun c hc => by
          rw [List.mem_singleton] at hc
          subst hc
          exact ⟨fun h => TestType.noConfusion h, fun _ => hec⟩)
  case isFalse.isTrue hz =>
    injection hgen with h
    injection h with h1 h2
    subst h1
    intro c hc
    rw [List.mem_singleton] at hc
    subst hc
    exact ⟨fun _ => hsc, fun h => TestType.noConfusion h⟩
  case isFalse.isFalse hz =>
    split at hgen
    next => simp at hgen
    next ec hec =>
      injection hgen with h
      injection h with h1 h2
      subst h1
      exact ep_members_tagged rng e sc ec hsc hec _ _ _ _ _ _
        (fun c hc => by cases hc)

/-- A parameter boundary case is code-tagged for either validity flag. -/
theorem create_param_boundary_tagged (rng : RandomSource) (e : Endpoint) (m : Nat)
    (p : Param) (v : Value) (b : Bool) (sc ec : Nat)
    (hsc : get_first_success_code? e = some sc)
    (hec : get_first_error_code? e = some ec) :
    code_tagged e (create_param_boundary_case rng e m p v b sc ec) := by
  cases b
  · exact ⟨fun h => TestType.noConfusion h, fun _ => hec⟩
  · exact ⟨fun _ => hsc, fun h => TestType.noConfusion h⟩

/-- A string-length property boundary case is code-tagged. -/
theorem create_property_boundary_tagged (rng : RandomSource) (e : Endpoint) (m : Nat)
    (schema : Schema) (pn : String) (l : Int) (b : Bool) (bt : String) (sc ec : Nat)
    (hsc : get_first_success_code? e = some sc)
    (hec : get_first_error_code? e = some ec) :
    code_tagged e (create_property_boundary_case rng e m schema pn l b bt sc ec) := by
  cases b
  · exact ⟨fun h => TestType.noConfusion h, fun _ => hec⟩
  · exact ⟨fun _ => hsc, fun h => TestType.noConfusion h⟩

/-- A numeric property boundary case is code-tagged. -/
theorem create_numeric_property_tagged (rng : RandomSource) (e : Endpoint) (m : Nat)
    (schema : Schema) (pn : String) (q : PyNum) (b : Bool) (bt : String) (sc ec : Nat)
    (hsc : get_first_success_code? e = some sc)
    (hec : get_first_error_code? e = some ec) :
    code_tagged e (create_numeric_property_case rng e m schema pn q b bt sc ec) := by
  cases b
  · exact ⟨fun h => TestType.noConfusion h, fun _ => hec⟩
  · exact ⟨fun _ => hsc, fun h => TestType.noConfusion h⟩

/-- A decision-table case is code-tagged for any combination. -/
theorem create_dt_tagged (rng : RandomSource) (e : Endpoint) (m : Nat)
    (hd : List Param) (combo : List Bool) (sc ec : Nat)
    (hsc : get_first_success_code? e = some sc)
    (hec : get_first_error_code? e = some ec) :
    code_tagged e (create_decision_table_case rng e m hd combo sc ec) := by
  have ht : (create_decision_table_case rng e m hd combo sc ec).test_type
      = if combo.all id then TestType.POSITIVE else TestType.NEGATIVE := rfl
  have hst : (create_decision_table_case rng e m hd combo sc ec).expected_result.status_code
      = if combo.all id then sc else ec := rfl
  refine ⟨fun hp => ?_, fun hn => ?_⟩
  · rw [ht] at hp
    rw [hst]
    cases hall : combo.all id
    · rw [hall] at hp
      simp at hp
    · simpa using hsc
  · rw [ht] at hn
    rw [hst]
    cases hall : combo.all id
    · simpa using hec
    · rw [hall] at hn
      simp at hn

/-- Inversion of `bva_generate`: every produced case is code-tagged. -/
theorem bva_code_tagged (rng : RandomSource) (e : Endpoint) (c0 : Nat)
    (cs : List TestCase) (n : Nat) (hgen : bva_generate rng e c0 = some (cs, n)) :
    ∀ c ∈ cs, code_tagged e c := by
  unfold bva_generate at hgen
  dsimp only at hgen
  split at hgen
  · injection hgen with h
    injection h with h1 h2
    subst h1
    intro c hc
    cases hc
  · split at hgen
    next sc ec hsc hec =>
      injection hgen with h
      injection h with h1 h2
      subst h1
      intro c hc
      rw [List.mem_append] at hc
      rcases hc with hc | hc
      · obtain ⟨⟨p, v⟩, hx, m, rfl⟩ := mapWithCounter_mem _ _ _ _ hc
        exact create_param_boundary_tagged rng e m p v _ sc ec hsc hec
      · obtain ⟨⟨pr, spec⟩, hx, m, rfl⟩ := mapWithCounter_mem _ _ _ _ hc
        cases spec with
        | lenCase l b bt => exact create_property_boundary_tagged rng e m _ _ l b bt sc ec hsc hec
        | numCase q b bt => exact create_numeric_property_tagged rng e m _ _ q b bt sc ec hsc hec
    next h1 h2 =>
      simp at hgen

/-- Inversion of `dt_generate`: every produced case is code-tagged. -/
theorem dt_code_tagged (rng : RandomSource) (e : Endpoint) (c0 : Nat)
    (cs : List TestCase) (n : Nat) (hgen : dt_generate rng e c0 = some (cs, n)) :
    ∀ c ∈ cs, code_tagged e c := by
  unfold dt_generate at hgen
  dsimp only at hgen
  split at hgen
  · split at hgen
    next sc ec hsc hec =>
      injection hgen with h
      rw [Prod.ext_iff] at h
      obtain ⟨h1, h2⟩ := h
      subst h1
      intro c hc
      obtain ⟨combo, hcombo, m, rfl⟩ := mapWithCounter_mem _ _ _ _ hc
      exact create_dt_tagged rng e m _ combo sc ec hsc hec
    next h1 h2 =>
      simp at hgen
  · injection hgen with h
    injection h with h1 h2
    subst h1
    intro c hc
    cases hc

/-- C3: every case produced by any of the three generators on any endpoint
satisfies the polarity-status invariant: negative cases carry the integer of
an error-response key (or 400 when none is declared), positive cases the
integer of a success key (or 200). -/
theorem c3_status_invariant (rng : RandomSource) (e : Endpoint) (c0 : Nat)
    (cs : List TestCase) (n : Nat) (c : TestCase)
    (hgen : ep_generate rng e c0 = some (cs, n) ∨
            bva_generate rng e c0 = some (cs, n) ∨
            dt_generate rng e c0 = some (cs, n))
    (hc : c ∈ cs) : status_matches e c := by
  rcases hgen with h | h | h
  · exact status_matches_of_code_tagged e c (ep_code_tagged rng e c0 cs n h c hc)
  · exact status_matches_of_code_tagged e c (bva_code_tagged rng e c0 cs n h c hc)
  · exact status_matches_of_code_tagged e c (dt_code_tagged rng e c0 cs n h c hc)

/-- The single (positive) case EP produces on the no-input endpoint. -/
def epNoInputsCase : TestCase := ep_all_valid_case rng0 eNoInputs 1 200

/-- Witness for C3: the invariant at a concrete produced case. -/
theorem c3_status_invariant_witness : status_matches eNoInputs epNoInputsCase :=
  c3_status_invariant rng0 eNoInputs 0 [epNoInputsCase] 1 epNoInputsCase
    (Or.inl rfl) (List.mem_singleton_self _)

/-! ## C4 -/

theorem dkeys_dinsert (d : List (String × Value)) (k : String) (v : Value) :
    dkeys (dinsert d k v) = if k ∈ dkeys d then dkeys d else dkeys d ++ [k] := by
  induction d with
  | nil => simp [dinsert, dkeys]
  | cons kv rest ih =>
      rcases kv with ⟨a, b⟩
      by_cases hak : (a == k) = true
      · have ha : a = k := by simpa using hak
        subst ha
        simp [dinsert, dkeys]
      · have hne : a ≠ k := by simpa using hak
        have hne2 : k ≠ a := Ne.symm hne
        have hstep : dinsert ((a, b) :: rest) k v = (a, b) :: dinsert rest k v := by
          simp [dinsert, hak]
        rw [hstep]
        have hk1 : dkeys ((a, b) :: dinsert rest k v) = a :: dkeys (dinsert rest k v) := rfl
        have hk2 : dkeys ((a, b) :: rest) = a :: dkeys rest := rfl
        rw [hk1, hk2, ih]
        by_cases hm : k ∈ dkeys rest
        · simp [hm, hne2]
        · simp [hm, hne2]

/-- Keys of a fold that either skips an element or inserts it under its name:
exactly the names of the kept elements (when those are distinct and fresh). -/
theorem dkeys_foldl_skip_insert {α : Type}
    (step : List (String × Value) → α → List (String × Value))
    (skip : α → Bool) (nm : α → String)
    (hskip : ∀ d x, skip x = true → step d x = d)
    (hins : ∀ d x, skip x = false → ∃ v, step d x = dinsert d (nm x) v)
    (l : List α) (d0 : List (String × Value))
    (hnodup : ((l.filter (fun x => !skip x)).map nm).Nodup)
    (hdisj : ∀ x ∈ l, skip x = false → nm x ∉ dkeys d0) :
    dkeys (l.foldl step d0) = dkeys d0 ++ (l.filter (fun x => !skip x)).map nm := by
  induction l generalizing d0 with
  | nil => simp
  | cons x xs ih =>
      by_cases hx : skip x = true
      · rw [List.foldl_cons, hskip d0 x hx]
        have hfil : List.filter (fun y => !skip y) (x :: xs) = xs.filter (fun y => !skip y) := by
          simp [List.filter_cons, hx]
        rw [hfil] at hnodup ⊢
        exact ih d0 hnodup (fun y hy => hdisj y (List.mem_cons_of_mem x hy))
      · have hx' : skip x = false := by simpa using hx
        obtain ⟨v, hv⟩ := hins d0 x hx'
        rw [List.foldl_cons, hv]
        have hfil : List.filter (fun y => !skip y) (x :: xs) = x :: xs.filter (fun y => !skip y) := by
          simp [List.filter_cons, hx']
        rw [hfil] at hnodup ⊢
        rw [List.map_cons] at hnodup ⊢
        rw [List.nodup_cons] at hnodup
        obtain ⟨hxn, hnodup2⟩ := hnodup
        have hni : nm x ∉ dkeys d0 := hdisj x (List.mem_cons_self _ _) hx'
        have hkeys : dkeys (dinsert d0 (nm x) v) = dkeys d0 ++ [nm x] := by
          rw [dkeys_dinsert]
          simp [hni]
        have hdisj2 : ∀ y ∈ xs, skip y = false → nm y ∉ dkeys (dinsert d0 (nm x) v) := by
          intro y hy hyf
          rw [hkeys]
          intro hmem
          rw [List.mem_append] at hmem
          rcases hmem with hmem | hmem
          · exact hdisj y (List.mem_cons_of_mem x hy) hyf hmem
          · rw [List.mem_singleton] at hmem
            refine hxn ?_
            rw [← hmem]
            exact List.mem_map_of_mem _ (List.mem_filter.mpr ⟨hy, by simp [hyf]⟩)
        rw [ih (dinsert d0 (nm x) v) hnodup2 hdisj2, hkeys]
        simp

/-- Header keys of `_populate_valid_test_data` when one header name is excluded. -/
theorem populate_headers_keys_exclude (rng : RandomSource) (e : Endpoint) (hn : String)
    (hnodup : (e.get_required_headers.map (·.name)).Nodup) :
    dkeys (populate_valid_test_data rng e (some (hn, "header")) none).headers
      = (e.get_required_headers.filter (fun x => !(x.name == hn))).map (·.name) := by
  unfold populate_valid_test_data
  dsimp only
  refine (dkeys_foldl_skip_insert _ (fun x => x.name == hn) (fun x => x.name)
      ?_ ?_ e.get_required_headers [] ?_ ?_).trans (by simp [dkeys])
  · intro d x hx
    simp [hx]
  · intro d x hx
    exact ⟨generate_valid_value rng x, by simp [hx]⟩
  · exact ((List.filter_sublist _).map _).nodup hnodup
  · intro x _ _
    simp [dkeys]

/-- Header keys of `_populate_valid_test_data` without exclusion (the
invalid-value substitution keeps the key present). -/
theorem populate_headers_keys_noexclude (rng : RandomSource) (e : Endpoint)
    (inv : Option (String × String × Param))
    (hnodup : (e.get_required_headers.map (·.name)).Nodup) :
    dkeys (populate_valid_test_data rng e none inv).headers
      = e.get_required_headers.map (·.name) := by
  unfold populate_valid_test_data
  dsimp only
  refine (dkeys_foldl_skip_insert _ (fun _ => false) (fun x => x.name)
      ?_ ?_ e.get_required_headers [] ?_ ?_).trans (by simp [dkeys])
  · intro d x hx
    cases hx
  · intro d x _
    rcases inv with _ | ⟨nn, ll, dta⟩
    · exact ⟨generate_valid_value rng x, by simp⟩
    · by_cases hc : (x.name == nn && ll == "header") = true
      · exact ⟨generate_invalid_value rng dta "invalid_format", by simp [hc]⟩
      · exact ⟨generate_valid_value rng x, by simp [hc]⟩
  · simpa using hnodup
  · intro x _ _
    simp [dkeys]

/-- Path-parameter keys of `_populate_valid_test_data` (exclusions are
header-located in every call site). -/
theorem populate_path_keys (rng : RandomSource) (e : Endpoint)
    (excl : Option (String × String)) (inv : Option (String × String × Param))
    (hloc : ∀ p : String × String, excl = some p → p.2 = "header")
    (hnodup : (e.get_path_params.map (·.name)).Nodup) :
    dkeys (populate_valid_test_data rng e excl inv).path_params
      = e.get_path_params.map (·.name) := by
  unfold populate_valid_test_data
  dsimp only
  refine (dkeys_foldl_skip_insert _ (fun _ => false) (fun x => x.name)
      ?_ ?_ e.get_path_params [] ?_ ?_).trans (by simp [dkeys])
  · intro d x hx
    cases hx
  · intro d x _
    rcases hexcl : excl with _ | ⟨nn, ll⟩
    · exact ⟨generate_valid_value rng x, by simp⟩
    · have hl : ll = "header" := hloc (nn, ll) hexcl
      subst hl
      exact ⟨generate_valid_value rng x, by simp⟩
  · simpa using hnodup
  · intro x _ _
    simp [dkeys]

/-- Required-query keys of `_populate_valid_test_data`. -/
theorem populate_query_keys (rng : RandomSource) (e : Endpoint)
    (excl : Option (String × String)) (inv : Option (String × String × Param))
    (hloc : ∀ p : String × String, excl = some p → p.2 = "header")
    (hnodup : ((e.get_query_params.filter (·.required)).map (·.name)).Nodup) :
    dkeys (populate_valid_test_data rng e excl inv).query_params
      = (e.get_query_params.filter (·.required)).map (·.name) := by
  unfold populate_valid_test_data
  dsimp only
  refine (dkeys_foldl_skip_insert _ (fun x => !x.required) (fun x => x.name)
      ?_ ?_ e.get_query_params [] ?_ ?_).trans (by simp [dkeys, Bool.not_not])
  · intro d x hx
    have hr : x.required = false := by simpa using hx
    simp [hr]
  · intro d x hx
    have hr : x.required = true := by simpa using hx
    rcases hexcl : excl with _ | ⟨nn, ll⟩
    · exact ⟨generate_valid_value rng x, by simp [hr]⟩
    · have hl : ll = "header" := hloc (nn, ll) hexcl
      subst hl
      exact ⟨generate_valid_value rng x, by simp [hr]⟩
  · simpa [Bool.not_not] using hnodup
  · intro x _ _
    simp [dkeys]

/-- `_populate_valid_test_data` sets a body exactly when the request body is required. -/
theorem populate_body_isSome (rng : RandomSource) (e : Endpoint)
    (excl : Option (String × String)) (inv : Option (String × String × Param)) :
    (populate_valid_test_data rng e excl inv).body.isSome = e.bodyRequired := by
  rcases hrb : e.request_body with _ | rb
  · simp [populate_valid_test_data, Endpoint.bodyRequired, hrb]
  · cases hr : rb.required
    · simp [populate_valid_test_data, Endpoint.bodyRequired, hrb, hr]
    · simp [populate_valid_test_data, Endpoint.bodyRequired, hrb, hr]

/-- The claim's all-valid shape: positive, and every required input present
(all required headers, all path params, all required query params, and a body
iff one is required). -/
def all_valid_shape (e : Endpoint) (c : TestCase) : Bool :=
  c.test_type == TestType.POSITIVE &&
  dkeys c.test_data.headers == e.get_required_headers.map (·.name) &&
  dkeys c.test_data.path_params == e.get_path_params.map (·.name) &&
  dkeys c.test_data.query_params == (e.get_query_params.filter (·.required)).map (·.name) &&
  c.test_data.body.isSome == e.bodyRequired

/-- The claim's missing-header shape: negative, exactly the given header name
absent from the headers, every other required input present. -/
def omits_header_shape (e : Endpoint) (hname : String) (c : TestCase) : Bool :=
  c.test_type == TestType.NEGATIVE &&
  dkeys c.test_data.headers
    == (e.get_required_headers.filter (fun x => !(x.name == hname))).map (·.name) &&
  dkeys c.test_data.path_params == e.get_path_params.map (·.name) &&
  dkeys c.test_data.query_params == (e.get_query_params.filter (·.required)).map (·.name) &&
  c.test_data.body.isSome == e.bodyRequired

/-- A name never survives the filter that removes it. -/
theorem name_not_mem_filtered (req : List Param) (a : String) :
    a ∉ (req.filter (fun x => !(x.name == a))).map (·.name) := by
  intro hmem
  rw [List.mem_map] at hmem
  obtain ⟨x, hx, hxn⟩ := hmem
  rw [List.mem_filter] at hx
  rw [hxn] at hx
  simp at hx

/-- Removing different names of present headers yields different key lists. -/
theorem filter_names_ne (req : List Param) (h : Param) (hh : h ∈ req) (a : String)
    (hne : a ≠ h.name) :
    (req.filter (fun x => !(x.name == a))).map (·.name)
      ≠ (req.filter (fun x => !(x.name == h.name))).map (·.name) := by
  intro heq
  have hne2 : h.name ≠ a := Ne.symm hne
  have h1 : h.name ∈ (req.filter (fun x => !(x.name == a))).map (·.name) :=
    List.mem_map_of_mem _ (List.mem_filter.mpr ⟨hh, by simp [hne2]⟩)
  rw [heq] at h1
  exact name_not_mem_filtered req h.name h1

/-- The full name list differs from any properly filtered one. -/
theorem all_names_ne_filtered (req : List Param) (a : String)
    (hmem : a ∈ req.map (·.name)) :
    req.map (·.name) ≠ (req.filter (fun x => !(x.name == a))).map (·.name) := by
  intro heq
  rw [heq] at hmem
  exact name_not_mem_filtered req a hmem

/-- Comparing filtered key lists is comparing the removed names. -/
theorem filter_beq_eq_name_beq (req : List Param) (h h2 : Param) (hh : h ∈ req)
    (hnodup : (req.map (·.name)).Nodup) :
    ((req.filter (fun x => !(x.name == h2.name))).map (·.name)
      == (req.filter (fun x => !(x.name == h.name))).map (·.name))
      = (h2.name == h.name) := by
  by_cases hnm : h2.name = h.name
  · rw [hnm]
    simp
  · have hne := filter_names_ne req h hh h2.name hnm
    simp [hne, hnm]

/-- With distinct names, exactly one element carries a given present name. -/
theorem countP_name_eq_one (req : List Param) (h : Param) (hh : h ∈ req)
    (hnodup : (req.map (·.name)).Nodup) :
    req.countP (fun x => x.name == h.name) = 1 := by
  have hc : (req.map (·.name)).count h.name = req.countP (fun x => x.name == h.name) := by
    rw [List.count, List.countP_map]
    rfl
  rw [← hc]
  exact List.count_eq_one_of_mem hnodup (List.mem_map_of_mem _ hh)

/-- `mapWithCounter_countP` restricted to predicates that agree on members only. -/
theorem mapWithCounter_countP_mem {α β : Type} (f : α → Nat → β) (p : β → Bool) (q : α → Bool)
    (l : List α) (hq : ∀ x ∈ l, ∀ m, p (f x m) = q x) (n : Nat) :
    (mapWithCounter f l n).1.countP p = l.countP q := by
  induction l generalizing n with
  | nil => rfl
  | cons x xs ih =>
      rw [mapWithCounter_cons]
      simp only [List.countP_cons]
      rw [hq x (List.mem_cons_self _ _) (n + 1),
          ih (fun y hy m => hq y (List.mem_cons_of_mem x hy) m) (n + 1)]

/-- Location side conditions for the populate lemmas. -/
theorem locNone : ∀ p : String × String, (none : Option (String × String)) = some p → p.2 = "header" :=
  fun _ hp => nomatch hp

/-- An explicit exclusion at the header location. -/
theorem locHeader (hn : String) :
    ∀ p : String × String, (some (hn, "header") : Option (String × String)) = some p → p.2 = "header" :=
  fun p hp => by
    cases Option.some.inj hp
    rfl

/-- Boolean equality facts for `TestType`. -/
theorem tt_beq_pp : (TestType.POSITIVE == TestType.POSITIVE) = true := rfl

theorem tt_beq_nn : (TestType.NEGATIVE == TestType.NEGATIVE) = true := rfl

theorem tt_beq_pn : (TestType.POSITIVE == TestType.NEGATIVE) = false := rfl

theorem tt_beq_np : (TestType.NEGATIVE == TestType.POSITIVE) = false := rfl

/-- The all-valid case has the all-valid shape. -/
theorem all_valid_shape_on_pos (rng : RandomSource) (e : Endpoint) (n sc : Nat)
    (hH : (e.get_required_headers.map (·.name)).Nodup)
    (hP : (e.get_path_params.map (·.name)).Nodup)
    (hQ : ((e.get_query_params.filter (·.required)).map (·.name)).Nodup) :
    all_valid_shape e (ep_all_valid_case rng e n sc) = true := by
  have hh := populate_headers_keys_noexclude rng e none hH
  have hp := populate_path_keys rng e none none locNone hP
  have hq := populate_query_keys rng e none none locNone hQ
  have hb := populate_body_isSome rng e none none
  simp [all_valid_shape, ep_all_valid_case, hh, hp, hq, hb, tt_beq_pp]

/-- A missing-header case is not the all-valid case. -/
theorem all_valid_shape_on_missing (rng : RandomSource) (e : Endpoint) (m ec : Nat) (h2 : Param) :
    all_valid_shape e (ep_missing_param_case rng e m h2 "header" ec) = false := by
  simp [all_valid_shape, ep_missing_param_case, tt_beq_np]

/-- An invalid-format case is not the all-valid case. -/
theorem all_valid_shape_on_invalid (rng : RandomSource) (e : Endpoint) (m ec : Nat) (h2 : Param) :
    all_valid_shape e (ep_invalid_format_case rng e m h2 "header" ec) = false := by
  simp [all_valid_shape, ep_invalid_format_case, tt_beq_np]

/-- The empty-body case is not the all-valid case. -/
theorem all_valid_shape_on_empty (rng : RandomSource) (e : Endpoint) (m ec : Nat) :
    all_valid_shape e (ep_empty_body_case rng e m ec) = false := by
  simp [all_valid_shape, ep_empty_body_case, tt_beq_np]

/-- The all-valid case omits no header. -/
theorem omits_shape_on_pos (rng : RandomSource) (e : Endpoint) (n sc : Nat) (a : String) :
    omits_header_shape e a (ep_all_valid_case rng e n sc) = false := by
  simp [omits_header_shape, ep_all_valid_case, tt_beq_pn]

/-- A missing-header case has the omission shape for `a` iff it excludes `a`. -/
theorem omits_shape_on_missing (rng : RandomSource) (e : Endpoint) (m ec : Nat)
    (h2 : Param) (a : String)
    (hH : (e.get_required_headers.map (·.name)).Nodup)
    (hP : (e.get_path_params.map (·.name)).Nodup)
    (hQ : ((e.get_query_params.filter (·.required)).map (·.name)).Nodup) :
    omits_header_shape e a (ep_missing_param_case rng e m h2 "header" ec)
      = ((e.get_required_headers.filter (fun x => !(x.name == h2.name))).map (·.name)
          == (e.get_required_headers.filter (fun x => !(x.name == a))).map (·.name)) := by
  have hh := populate_headers_keys_exclude rng e h2.name hH
  have hp := populate_path_keys rng e (some (h2.name, "header")) none (locHeader h2.name) hP
  have hq := populate_query_keys rng e (some (h2.name, "header")) none (locHeader h2.name) hQ
  have hb := populate_body_isSome rng e (some (h2.name, "header")) none
  simp [omits_header_shape, ep_missing_param_case, hh, hp, hq, hb, tt_beq_nn]

/-- An invalid-format case keeps every header present. -/
theorem omits_shape_on_invalid (rng : RandomSource) (e : Endpoint) (m ec : Nat)
    (h2 : Param) (a : String)
    (hH : (e.get_required_headers.map (·.name)).Nodup)
    (hmem : a ∈ e.get_required_headers.map (·.name)) :
    omits_header_shape e a (ep_invalid_format_case rng e m h2 "header" ec) = false := by
  have hh := populate_headers_keys_noexclude rng e (some (h2.name, "header", h2)) hH
  have hne := all_names_ne_filtered e.get_required_headers a hmem
  simp [omits_header_shape, ep_invalid_format_case, hh, hne, tt_beq_nn]

/-- The empty-body case keeps every header present. -/
theorem omits_shape_on_empty (rng : RandomSource) (e : Endpoint) (m ec : Nat) (a : String)
    (hH : (e.get_required_headers.map (·.name)).Nodup)
    (hmem : a ∈ e.get_required_headers.map (·.name)) :
    omits_header_shape e a (ep_empty_body_case rng e m ec) = false := by
  have hh := populate_headers_keys_noexclude rng e none hH
  have hne := all_names_ne_filtered e.get_required_headers a hmem
  simp [omits_header_shape, ep_empty_body_case, hh, hne, tt_beq_nn]

/-- Counting a constantly false predicate. -/
theorem countP_const_false {β : Type} (l : List β) : l.countP (fun _ => false) = 0 := by
  induction l with
  | nil => rfl
  | cons x xs ih => simp [List.countP_cons, ih]

/-- C4: for an endpoint with at least one required header (input names
distinct as in any well-formed OpenAPI operation), the Equivalence
Partitioning generator emits exactly one positive case, exactly one case of
the all-valid shape, and, for each required header, exactly one negative case
in which exactly that header is omitted while every other required input is
present. -/
theorem c4_ep_structure (rng : RandomSource) (e : Endpoint) (c0 : Nat)
    (cs : List TestCase) (n : Nat)
    (hhdr : e.get_required_headers ≠ [])
    (hH : (e.get_required_headers.map (·.name)).Nodup)
    (hP : (e.get_path_params.map (·.name)).Nodup)
    (hQ : ((e.get_query_params.filter (·.required)).map (·.name)).Nodup)
    (hgen : ep_generate rng e c0 = some (cs, n)) :
    cs.countP (fun c => c.test_type == TestType.POSITIVE) = 1 ∧
    cs.countP (all_valid_shape e) = 1 ∧
    ∀ h ∈ e.get_required_headers, cs.countP (omits_header_shape e h.name) = 1 := by
  unfold ep_generate at hgen
  rcases hsc : get_first_success_code? e with _ | sc
  · rw [hsc] at hgen
    simp at hgen
  rw [hsc] at hgen
  dsimp only at hgen
  split at hgen
  all_goals split at hgen
  case isTrue.isTrue hz =>
    exfalso
    have h0 : e.get_required_headers.length
        + (e.get_required_headers.filter (fun h => optTruthyStr h.format)).length + 1 = 0 := by
      simpa using hz
    omega
  case isFalse.isTrue hz =>
    exfalso
    have h0 : e.get_required_headers.length
        + (e.get_required_headers.filter (fun h => optTruthyStr h.format)).length + 0 = 0 := by
      simpa using hz
    have hlen : e.get_required_headers = [] := List.length_eq_zero.mp (by omega)
    exact hhdr hlen
  case isTrue.isFalse hz =>
    split at hgen
    next => simp at hgen
    next ec hec =>
      injection hgen with h
      injection h with h1 h2
      subst h1
      refine ⟨?_, ?_, ?_⟩
      · have hM := mapWithCounter_countP
          (fun x n => ep_missing_param_case rng e n x "header" ec)
          (fun c => c.test_type == TestType.POSITIVE) (fun _ => false)
          (fun x m => rfl) e.get_required_headers (c0 + 1)
        have hI := mapWithCounter_countP
          (fun x n => ep_invalid_format_case rng e n x "header" ec)
          (fun c => c.test_type == TestType.POSITIVE) (fun _ => false)
          (fun x m => rfl) (e.get_required_headers.filter (fun h => optTruthyStr h.format))
          ((mapWithCounter (fun x n => ep_missing_param_case rng e n x "header" ec) e.get_required_headers (c0 + 1)).2)
        simp [List.countP_cons, List.countP_append, hM, hI, countP_const_false,
              ep_all_valid_case, ep_empty_body_case, tt_beq_pp, tt_beq_np]
      · have hM := mapWithCounter_countP
          (fun x n => ep_missing_param_case rng e n x "header" ec)
          (all_valid_shape e) (fun _ => false)
          (fun x m => all_valid_shape_on_missing rng e m ec x) e.get_required_headers (c0 + 1)
        have hI := mapWithCounter_countP
          (fun x n => ep_invalid_format_case rng e n x "header" ec)
          (all_valid_shape e) (fun _ => false)
          (fun x m => all_valid_shape_on_invalid rng e m ec x)
          (e.get_required_headers.filter (fun h => optTruthyStr h.format))
          ((mapWithCounter (fun x n => ep_missing_param_case rng e n x "header" ec) e.get_required_headers (c0 + 1)).2)
        simp [List.countP_cons, List.countP_append, hM, hI, countP_const_false,
              all_valid_shape_on_pos rng e (c0 + 1) sc hH hP hQ,
              all_valid_shape_on_empty rng e _ ec]
      · intro h hh
        have hmem : h.name ∈ e.get_required_headers.map (·.name) :=
          List.mem_map_of_mem _ hh
        have hM := mapWithCounter_countP_mem
          (fun x n => ep_missing_param_case rng e n x "header" ec)
          (omits_header_shape e h.name) (fun x => x.name == h.name)
          e.get_required_headers
          (fun x _ m => (omits_shape_on_missing rng e m ec x h.name hH hP hQ).trans
            (filter_beq_eq_name_beq e.get_required_headers h x hh hH)) (c0 + 1)
        have hI := mapWithCounter_countP
          (fun x n => ep_invalid_format_case rng e n x "header" ec)
          (omits_header_shape e h.name) (fun _ => false)
          (fun x m => omits_shape_on_invalid rng e m ec x h.name hH hmem)
          (e.get_required_headers.filter (fun x => optTruthyStr x.format))
          ((mapWithCounter (fun x n => ep_missing_param_case rng e n x "header" ec) e.get_required_headers (c0 + 1)).2)
        simp [List.countP_cons, List.countP_append, hM, hI, countP_const_false,
              omits_shape_on_pos rng e (c0 + 1) sc h.name,
              omits_shape_on_empty rng e _ ec h.name hH hmem,
              countP_name_eq_one e.get_required_headers h hh hH]
  case isFalse.isFalse hz =>
    split at hgen
    next => simp at hgen
    next ec hec =>
      injection hgen with h
      injection h with h1 h2
      subst h1
      refine ⟨?_, ?_, ?_⟩
      · have hM := mapWithCounter_countP
          (fun x n => ep_missing_param_case rng e n x "header" ec)
          (fun c => c.test_type == TestType.POSITIVE) (fun _ => false)
          (fun x m => rfl) e.get_required_headers (c0 + 1)
        have hI := mapWithCounter_countP
          (fun x n => ep_invalid_format_case rng e n x "header" ec)
          (fun c => c.test_type == TestType.POSITIVE) (fun _ => false)
          (fun x m => rfl) (e.get_required_headers.filter (fun h => optTruthyStr h.format))
          ((mapWithCounter (fun x n => ep_missing_param_case rng e n x "header" ec) e.get_required_headers (c0 + 1)).2)
        simp [List.countP_cons, List.countP_append, hM, hI, countP_const_false,
              ep_all_valid_case, ep_empty_body_case, tt_beq_pp, tt_beq_np]
      · have hM := mapWithCounter_countP
          (fun x n => ep_missing_param_case rng e n x "header" ec)
          (all_valid_shape e) (fun _ => false)
          (fun x m => all_valid_shape_on_missing rng e m ec x) e.get_required_headers (c0 + 1)
        have hI := mapWithCounter_countP
          (fun x n => ep_invalid_format_case rng e n x "header" ec)
          (all_valid_shape e) (fun _ => false)
          (fun x m => all_valid_shape_on_invalid rng e m ec x)
          (e.get_required_headers.filter (fun h => optTruthyStr h.format))
          ((mapWithCounter (fun x n => ep_missing_param_case rng e n x "header" ec) e.get_required_headers (c0 + 1)).2)
        simp [List.countP_cons, List.countP_append, hM, hI, countP_const_false,
              all_valid_shape_on_pos rng e (c0 + 1) sc hH hP hQ]
      · intro h hh
        have hmem : h.name ∈ e.get_required_headers.map (·.name) :=
          List.mem_map_of_mem _ hh
        have hM := mapWithCounter_countP_mem
          (fun x n => ep_missing_param_case rng e n x "header" ec)
          (omits_header_shape e h.name) (fun x => x.name == h.name)
          e.get_required_headers
          (fun x _ m => (omits_shape_on_missing rng e m ec x h.name hH hP hQ).trans
            (filter_beq_eq_name_beq e.get_required_headers h x hh hH)) (c0 + 1)
        have hI := mapWithCounter_countP
          (fun x n => ep_invalid_format_case rng e n x "header" ec)
          (omits_header_shape e h.name) (fun _ => false)
          (fun x m => omits_shape_on_invalid rng e m ec x h.name hH hmem)
          (e.get_required_headers.filter (fun x => optTruthyStr x.format))
          ((mapWithCounter (fun x n => ep_missing_param_case rng e n x "header" ec) e.get_required_headers (c0 + 1)).2)
        simp [List.countP_cons, List.countP_append, hM, hI, countP_const_false,
              omits_shape_on_pos rng e (c0 + 1) sc h.name,
              countP_name_eq_one e.get_required_headers h hh hH]

/-- The equivalence-partitioning run on `eOrders`. -/
def epOrdersPair : List TestCase × Nat := (ep_generate rng0 eOrders 0).getD ([], 0)

/-- Witness for C4 on `eOrders`: one positive all-valid case and one
missing-header case for the first header. -/
theorem c4_ep_structure_witness :
    epOrdersPair.1.countP (fun c => c.test_type == TestType.POSITIVE) = 1 ∧
    epOrdersPair.1.countP (all_valid_shape eOrders) = 1 ∧
    epOrdersPair.1.countP (omits_header_shape eOrders (hdrParam "X-Api-Key").name) = 1 := by
  have hmem : hdrParam "X-Api-Key" ∈ eOrders.get_required_headers := by
    show hdrParam "X-Api-Key" ∈ [hdrParam "X-Api-Key", hdrParam "X-Client-Id"]
    exact List.mem_cons_self _ _
  have h := c4_ep_structure rng0 eOrders 0 epOrdersPair.1 epOrdersPair.2
    (fun hempty => List.noConfusion hempty) (by decide) (by decide) (by decide) rfl
  exact ⟨h.1, h.2.1, h.2.2 (hdrParam "X-Api-Key") hmem⟩
